import Mathlib

/-!
Shallow embedding of `src/web/src/services/sipService.ts` (class `SipService`,
SIP.js v0.21.2 client wrapper) for checking the natural-language specification
of the signaling session manager.

Modelling conventions:

* `SessionState` mirrors SIP.js `SessionState` (Initial, Establishing,
  Established, Terminating, Terminated).  SIP.js only ever moves a session
  forward through this order and emits a `stateChange` notification exactly on
  a real transition; `deliverState` below encodes that with a rank guard.
* The TS `activeSessions : Map<string, Session>` is modelled by a session
  *pool* (`ServiceState.sessions`, an association list keyed by sessionId)
  together with a per-session `inStore` flag: listener closures created by
  `setupSessionHandlers` / `handleIncomingCall` keep referencing the session
  object after `activeSessions.delete`, so deleted sessions must stay
  observable.  `storeGet` (= `Map.get`) sees only `inStore` sessions.
* Media and network collaborators (`navigator.mediaDevices.getUserMedia`,
  `inviter.invite`, `invitation.accept/reject`, `session.cancel/bye/info`,
  `sessionDescriptionHandler.hold/unhold`) are awaited external calls; each
  call site takes a Bool oracle telling whether that awaited call succeeds,
  and emits an `Effect` recording the outward action.  A `MediaStream` is
  modelled by the flags in `Sdh`: `hasLocalStream` (the handler's
  `localMediaStream` property is set), `tracksStopped` (its tracks have been
  stopped; `MediaStreamTrack.stop` on an already-stopped track is a no-op),
  `audioEnabled` (the `enabled` flag of its audio tracks), `localHold`
  (the SIP.js handler-internal hold flag read and toggled by `toggleHold`).
* Each TS method throwing is modelled by an `Except Err` result; mutations
  performed before the failing `await` persist in the returned state, exactly
  as in the source.
* The `Inviter` requestDelegate callbacks (`onAccept`/`onReject`) passed in
  `makeCall` are not modelled separately: `onAccept` re-emits the session
  state through `updateCallSession` and `onReject` deletes the session from
  the map, both of which the modelled `stateChange` listener path already
  performs on the corresponding `Established` / `Terminated` transition.
-/

/-- SIP.js session states, in machine order. -/
inductive SessionState where
  | Initial
  | Establishing
  | Established
  | Terminating
  | Terminated
deriving DecidableEq, Repr

/-- Position of a state in the forward-only SIP.js session state machine. -/
def SessionState.rank : SessionState → Nat
  | .Initial => 0
  | .Establishing => 1
  | .Established => 2
  | .Terminating => 3
  | .Terminated => 4

/-- Direction of a session: `Inviter` objects (makeCall) are Outgoing,
`Invitation` objects (handleIncomingCall) are Incoming.  The TS code tests
this with `instanceof Invitation`. -/
inductive Direction where
  | Outgoing
  | Incoming
deriving DecidableEq, Repr

/-- Observable state of a session's `sessionDescriptionHandler` and of the
local `MediaStream` attached to it. -/
structure Sdh where
  localHold : Bool
  hasLocalStream : Bool
  tracksStopped : Bool
  audioEnabled : Bool
deriving DecidableEq, Repr

/-- A SIP.js session object as the service observes it: its library-owned
`state`, its direction, whether it is currently a value of the
`activeSessions` map (`inStore`), how many `setupSessionHandlers` listeners
were registered on it (`handlerCount`), whether the `handleIncomingCall`
listener was registered (`incomingListener`), whether some registered setup
listener closure captured a freshly acquired `localStream`
(`pendingStream`), and its handler/media flags (`sdh`). -/
structure Sess where
  state : SessionState
  direction : Direction
  inStore : Bool
  handlerCount : Nat
  incomingListener : Bool
  pendingStream : Bool
  sdh : Sdh
deriving DecidableEq, Repr

/-- State of the `SipService` singleton: `initialized` is
`userAgent ≠ null ∧ config ≠ null`, `registered` is
`registerer?.state === 'Registered'` (the value `isRegistered()` reports),
and `sessions` is the session pool described in the module docstring. -/
structure ServiceState where
  initialized : Bool
  registered : Bool
  sessions : List (String × Sess)
deriving DecidableEq, Repr

/-- Outward-visible actions: collaborator calls and emitted events. -/
inductive Effect where
  | acquireMedia (audio video : Bool)
  | sendInvite (sid : String)
  | sendAccept (sid : String)
  | sendReject (sid : String)
  | sendCancel (sid : String)
  | sendBye (sid : String)
  | sendInfo (sid tone : String)
  | releaseMedia (sid : String)
  | callStateChange (sid : String) (s : SessionState)
  | incomingCall (sid : String)
  | mediaHold (sid : String)
  | mediaUnhold (sid : String)
deriving DecidableEq, Repr

/-- Errors thrown by the service methods, one constructor per distinct
`throw` site / error message in the source. -/
inductive Err where
  | notInitialized
  | invalidTarget
  | mediaAcquisitionFailed
  | inviteFailed
  | acceptFailed
  | rejectFailed
  | signalFailed
  | mediaOpFailed
  | infoFailed
  | sessionNotFound
  | invalidSessionOrNotFound
  | noEstablishedSession
deriving DecidableEq, Repr

/-- First-match lookup in the session pool. -/
def lookupPool : List (String × Sess) → String → Option Sess
  | [], _ => none
  | (k, v) :: rest, sid => if k = sid then some v else lookupPool rest sid

/-- Update-or-append in the session pool (semantics of `Map.set`). -/
def poolInsert : List (String × Sess) → String → Sess → List (String × Sess)
  | [], sid, s => [(sid, s)]
  | (k, v) :: rest, sid, s =>
      if k = sid then (k, s) :: rest else (k, v) :: poolInsert rest sid s

/-- Replace the session stored under `sid`. -/
def setSession (st : ServiceState) (sid : String) (s : Sess) : ServiceState :=
  { st with sessions := poolInsert st.sessions sid s }

/-- Semantics of `this.activeSessions.get(sessionId)`: only sessions still in
the map are visible. -/
def storeGet (st : ServiceState) (sid : String) : Option Sess :=
  match lookupPool st.sessions sid with
  | some s => if s.inStore then some s else none
  | none => none

/-- Semantics of `this.activeSessions.delete(sessionId)`. -/
def storeDelete (st : ServiceState) (sid : String) : ServiceState :=
  match lookupPool st.sessions sid with
  | some s => setSession st sid { s with inStore := false }
  | none => st

/-- The exported `CallSession` view built by `getActiveSessions`. -/
structure CallSession where
  id : String
  state : SessionState
  hasLocalStream : Bool
deriving DecidableEq, Repr

/-- `getActiveSessions()`: iterates the `activeSessions` map and builds a
snapshot entry for every stored session, with no filtering on state. -/
def getActiveSessions (st : ServiceState) : List CallSession :=
  (st.sessions.filter fun p => p.2.inStore).map fun p =>
    { id := p.1, state := p.2.state, hasLocalStream := p.2.sdh.hasLocalStream }

/-- `isRegistered()`: `this.registerer?.state === 'Registered'`. -/
def isRegistered (st : ServiceState) : Bool :=
  st.registered

/-- The session value a successful `makeCall` stores: a fresh `Inviter`
(state Initial, Outgoing) with one `setupSessionHandlers` listener whose
closure captured the freshly acquired local stream. -/
def freshOutgoingSession : Sess :=
  { state := SessionState.Initial, direction := Direction.Outgoing,
    inStore := true, handlerCount := 1, incomingListener := false,
    pendingStream := true,
    sdh := { localHold := false, hasLocalStream := false,
             tracksStopped := false, audioEnabled := true } }

/-- The session value `handleIncomingCall` stores: a fresh `Invitation`
with only the incoming-call listener registered and no media acquired. -/
def freshIncomingSession : Sess :=
  { state := SessionState.Initial, direction := Direction.Incoming,
    inStore := true, handlerCount := 0, incomingListener := true,
    pendingStream := false,
    sdh := { localHold := false, hasLocalStream := false,
             tracksStopped := false, audioEnabled := true } }

/-- `makeCall(targetUri, options)`.  Checks only initialization
(`!this.userAgent || !this.config`) and target-URI validity, then awaits
`getUserMedia` (oracle `mediaOk`), creates an `Inviter` (state Initial),
registers one `setupSessionHandlers` listener capturing the stream, stores
the session under a fresh id, and awaits `inviter.invite` (oracle
`inviteOk`); a failing `invite` throws after the session was stored. -/
def makeCall (st : ServiceState) (sid : String)
    (audio video targetValid mediaOk inviteOk : Bool) :
    Except Err String × ServiceState × List Effect :=
  if !st.initialized then (Except.error Err.notInitialized, st, [])
  else if !targetValid then (Except.error Err.invalidTarget, st, [])
  else if !mediaOk then
    (Except.error Err.mediaAcquisitionFailed, st, [Effect.acquireMedia audio video])
  else
    let st1 := setSession st sid freshOutgoingSession
    if inviteOk then
      (Except.ok sid, st1, [Effect.acquireMedia audio video, Effect.sendInvite sid])
    else
      (Except.error Err.inviteFailed, st1,
       [Effect.acquireMedia audio video, Effect.sendInvite sid])

/-- `answerCall(sessionId, options)`.  Looks the session up in the map and
requires `instanceof Invitation` (direction Incoming) — unknown id and wrong
object kind raise the same error — then awaits `getUserMedia`, registers a
further `setupSessionHandlers` listener capturing the new stream, awaits
`invitation.accept` (oracle `acceptOk`) and on success emits
`onCallStateChange` with the session's current state via
`updateCallSession`.  No session-state check is performed. -/
def answerCall (st : ServiceState) (sid : String)
    (audio video mediaOk acceptOk : Bool) :
    Except Err Unit × ServiceState × List Effect :=
  match storeGet st sid with
  | none => (Except.error Err.invalidSessionOrNotFound, st, [])
  | some sess =>
    if sess.direction != Direction.Incoming then
      (Except.error Err.invalidSessionOrNotFound, st, [])
    else if !mediaOk then
      (Except.error Err.mediaAcquisitionFailed, st, [Effect.acquireMedia audio video])
    else
      let sess1 := { sess with handlerCount := sess.handlerCount + 1,
                               pendingStream := true }
      let st1 := setSession st sid sess1
      if acceptOk then
        (Except.ok (), st1,
         [Effect.acquireMedia audio video, Effect.sendAccept sid,
          Effect.callStateChange sid sess1.state])
      else
        (Except.error Err.acceptFailed, st1,
         [Effect.acquireMedia audio video, Effect.sendAccept sid])

/-- `rejectCall(sessionId)`.  Same lookup and `instanceof Invitation` check
as `answerCall`, then awaits `invitation.reject` (oracle `rejectOk`) and on
success deletes the session from the map.  No media is ever acquired. -/
def rejectCall (st : ServiceState) (sid : String) (rejectOk : Bool) :
    Except Err Unit × ServiceState × List Effect :=
  match storeGet st sid with
  | none => (Except.error Err.invalidSessionOrNotFound, st, [])
  | some sess =>
    if sess.direction != Direction.Incoming then
      (Except.error Err.invalidSessionOrNotFound, st, [])
    else if rejectOk then
      (Except.ok (), storeDelete st sid, [Effect.sendReject sid])
    else
      (Except.error Err.rejectFailed, st, [Effect.sendReject sid])

/-- `hangupCall(sessionId)`.  Throws `'Session not found'` if the id is not
in the map; otherwise switches on the session's current state — `cancel`
from Initial or Establishing, `bye` from Established, and only a log line in
the default (Terminating/Terminated) branch — and afterwards deletes the
session from the map.  A failing awaited `cancel`/`bye` (oracle `signalOk`)
throws before the delete. -/
def hangupCall (st : ServiceState) (sid : String) (signalOk : Bool) :
    Except Err Unit × ServiceState × List Effect :=
  match storeGet st sid with
  | none => (Except.error Err.sessionNotFound, st, [])
  | some sess =>
    match sess.state with
    | SessionState.Initial | SessionState.Establishing =>
      if signalOk then (Except.ok (), storeDelete st sid, [Effect.sendCancel sid])
      else (Except.error Err.signalFailed, st, [Effect.sendCancel sid])
    | SessionState.Established =>
      if signalOk then (Except.ok (), storeDelete st sid, [Effect.sendBye sid])
      else (Except.error Err.signalFailed, st, [Effect.sendBye sid])
    | _ => (Except.ok (), storeDelete st sid, [])

/-- `toggleHold(sessionId)`.  Throws `'No established session found'` when
the id is not in the map or the session is not Established (one combined
check in the source); otherwise reads the handler-internal `localHold` flag
and awaits `unhold()` / `hold()` accordingly (oracle `holdOk`; on success
the handler's flag flips). -/
def toggleHold (st : ServiceState) (sid : String) (holdOk : Bool) :
    Except Err Unit × ServiceState × List Effect :=
  match storeGet st sid with
  | none => (Except.error Err.noEstablishedSession, st, [])
  | some sess =>
    if sess.state != SessionState.Established then
      (Except.error Err.noEstablishedSession, st, [])
    else if sess.sdh.localHold then
      if holdOk then
        (Except.ok (),
         setSession st sid { sess with sdh := { sess.sdh with localHold := false } },
         [Effect.mediaUnhold sid])
      else (Except.error Err.mediaOpFailed, st, [Effect.mediaUnhold sid])
    else
      if holdOk then
        (Except.ok (),
         setSession st sid { sess with sdh := { sess.sdh with localHold := true } },
         [Effect.mediaHold sid])
      else (Except.error Err.mediaOpFailed, st, [Effect.mediaHold sid])

/-- `toggleMute(sessionId)`.  Same combined guard as `toggleHold`; if the
handler has a `localMediaStream`, flips `enabled` on its audio tracks
locally (no signaling). -/
def toggleMute (st : ServiceState) (sid : String) :
    Except Err Unit × ServiceState × List Effect :=
  match storeGet st sid with
  | none => (Except.error Err.noEstablishedSession, st, [])
  | some sess =>
    if sess.state != SessionState.Established then
      (Except.error Err.noEstablishedSession, st, [])
    else if sess.sdh.hasLocalStream then
      (Except.ok (),
       setSession st sid
         { sess with sdh := { sess.sdh with audioEnabled := !sess.sdh.audioEnabled } },
       [])
    else (Except.ok (), st, [])

/-- `sendDTMF(sessionId, tone)`.  Same combined guard; then awaits
`session.info` carrying the DTMF payload (oracle `infoOk`). -/
def sendDTMF (st : ServiceState) (sid : String) (tone : String) (infoOk : Bool) :
    Except Err Unit × ServiceState × List Effect :=
  match storeGet st sid with
  | none => (Except.error Err.noEstablishedSession, st, [])
  | some sess =>
    if sess.state != SessionState.Established then
      (Except.error Err.noEstablishedSession, st, [])
    else if infoOk then (Except.ok (), st, [Effect.sendInfo sid tone])
    else (Except.error Err.infoFailed, st, [Effect.sendInfo sid tone])

/-- `handleIncomingCall(invitation)` (private, invoked by the UserAgent
`onInvite` delegate): stores the `Invitation` under a fresh id, registers
the incoming-call listener that deletes the map entry on Terminated, and
raises `onIncomingCall`.  No media is acquired. -/
def handleIncomingCall (st : ServiceState) (sid : String) :
    ServiceState × List Effect :=
  (setSession st sid freshIncomingSession, [Effect.incomingCall sid])

/-- Body of one `setupSessionHandlers` stateChange listener, invoked with the
session value after SIP.js updated `session.state` to `newState`:
on Established it assigns the captured `localStream` to the handler's
`localMediaStream`; on Terminated it runs `cleanupSession` (delete the map
entry holding this object, then stop the tracks of the handler's
`localMediaStream` — a no-op on already-stopped tracks); finally it emits
`onCallStateChange` via `updateCallSession` only when `getSessionId` still
finds the object in the map. -/
def setupListenerStep (sid : String) (newState : SessionState) (sess : Sess) :
    Sess × List Effect :=
  let sess1 :=
    if newState = SessionState.Established && sess.pendingStream then
      { sess with sdh := { sess.sdh with hasLocalStream := true,
                                         tracksStopped := false } }
    else sess
  let cleaned :=
    if newState = SessionState.Terminated then
      let s0 := { sess1 with inStore := false }
      if s0.sdh.hasLocalStream && !s0.sdh.tracksStopped then
        ({ s0 with sdh := { s0.sdh with tracksStopped := true } },
         [Effect.releaseMedia sid])
      else (s0, ([] : List Effect))
    else (sess1, ([] : List Effect))
  let sess2 := cleaned.1
  if sess2.inStore then
    (sess2, cleaned.2 ++ [Effect.callStateChange sid newState])
  else (sess2, cleaned.2)

/-- Run the `n` registered `setupSessionHandlers` listeners in order. -/
def iterListeners (sid : String) (newState : SessionState) :
    Nat → Sess → Sess × List Effect
  | 0, sess => (sess, [])
  | n + 1, sess =>
      let r1 := setupListenerStep sid newState sess
      let r2 := iterListeners sid newState n r1.1
      (r2.1, r1.2 ++ r2.2)

/-- Delivery of a SIP.js `stateChange` notification for the session stored
under `sid`.  SIP.js only moves a session forward in the machine order and
fires listeners exactly on a real transition, hence the rank guard.  The
session's `state` is updated first; then the `handleIncomingCall` listener
(registered first, deletes the map entry on Terminated), then the
`setupSessionHandlers` listeners. -/
def deliverState (st : ServiceState) (sid : String) (newState : SessionState) :
    ServiceState × List Effect :=
  match lookupPool st.sessions sid with
  | none => (st, [])
  | some sess =>
    if sess.state.rank < newState.rank then
      let sess0 := { sess with state := newState }
      let sess1 :=
        if sess0.incomingListener && newState = SessionState.Terminated then
          { sess0 with inStore := false }
        else sess0
      let r := iterListeners sid newState sess0.handlerCount sess1
      (setSession st sid r.1, r.2)
    else (st, [])

/-- Events of the serialized execution model: each public operation with its
external-call oracles, plus asynchronous `stateChange` delivery.  Session
ids generated by `generateSessionId` are unique for the process lifetime, so
creation events with an already-used id do nothing. -/
inductive Event where
  | evMakeCall (sid : String) (audio video targetValid mediaOk inviteOk : Bool)
  | evAnswerCall (sid : String) (audio video mediaOk acceptOk : Bool)
  | evRejectCall (sid : String) (rejectOk : Bool)
  | evHangupCall (sid : String) (signalOk : Bool)
  | evToggleHold (sid : String) (holdOk : Bool)
  | evToggleMute (sid : String)
  | evSendDTMF (sid tone : String) (infoOk : Bool)
  | evHandleIncoming (sid : String)
  | evDeliverState (sid : String) (s : SessionState)
deriving DecidableEq, Repr

/-- One serialized step of the service. -/
def step (st : ServiceState) (e : Event) : ServiceState × List Effect :=
  match e with
  | Event.evMakeCall sid a v tv mOk iOk =>
      if (lookupPool st.sessions sid).isSome then (st, [])
      else
        let r := makeCall st sid a v tv mOk iOk
        (r.2.1, r.2.2)
  | Event.evAnswerCall sid a v mOk aOk =>
      let r := answerCall st sid a v mOk aOk
      (r.2.1, r.2.2)
  | Event.evRejectCall sid rOk =>
      let r := rejectCall st sid rOk
      (r.2.1, r.2.2)
  | Event.evHangupCall sid sOk =>
      let r := hangupCall st sid sOk
      (r.2.1, r.2.2)
  | Event.evToggleHold sid hOk =>
      let r := toggleHold st sid hOk
      (r.2.1, r.2.2)
  | Event.evToggleMute sid =>
      let r := toggleMute st sid
      (r.2.1, r.2.2)
  | Event.evSendDTMF sid tone iOk =>
      let r := sendDTMF st sid tone iOk
      (r.2.1, r.2.2)
  | Event.evHandleIncoming sid =>
      if (lookupPool st.sessions sid).isSome then (st, [])
      else handleIncomingCall st sid
  | Event.evDeliverState sid s => deliverState st sid s

/-- Run a list of events, concatenating their effects. -/
def run (st : ServiceState) : List Event → ServiceState × List Effect
  | [] => (st, [])
  | e :: es =>
      let r1 := step st e
      let r2 := run r1.1 es
      (r2.1, r1.2 ++ r2.2)

/-- A service after `initialize` succeeded, with the given registration
state and no sessions. -/
def mkService (registered : Bool) : ServiceState :=
  { initialized := true, registered := registered, sessions := [] }

/-! Counting machinery and store invariants used by the claims. -/

/-- Number of media releases (track-stop batches) for `sid` in an effect
trace. -/
def countRel (sid : String) (effs : List Effect) : Nat :=
  effs.count (Effect.releaseMedia sid)

/-- Number of `onCallStateChange` emissions with state Terminated for `sid`
in an effect trace. -/
def countTerm (sid : String) (effs : List Effect) : Nat :=
  effs.count (Effect.callStateChange sid SessionState.Terminated)

/-- One if the session's media tracks were already stopped. -/
def relNat (s : Sess) : Nat :=
  if s.sdh.tracksStopped then 1 else 0

/-- `relNat` of the session pooled under `sid`, zero if absent. -/
def relNatSt (st : ServiceState) (sid : String) : Nat :=
  match lookupPool st.sessions sid with
  | some s => relNat s
  | none => 0

/-- Per-session store invariant: stopped tracks only on Terminated sessions,
Terminated sessions are no longer in the map, and every session carries at
least one registered stateChange listener. -/
def sessOK (s : Sess) : Bool :=
  (!s.sdh.tracksStopped || s.state == SessionState.Terminated) &&
  (!(s.state == SessionState.Terminated) || !s.inStore) &&
  (s.incomingListener || decide (1 ≤ s.handlerCount))

/-- The store invariant over the whole pool. -/
def InvB (st : ServiceState) : Bool :=
  st.sessions.all fun p => sessOK p.2

/-- Effects that are neither a media release nor a Terminated
state-change emission. -/
def quietEff : Effect → Bool
  | Effect.releaseMedia _ => false
  | Effect.callStateChange _ s => !(s == SessionState.Terminated)
  | _ => true

theorem lookup_poolInsert (l : List (String × Sess)) (k k' : String) (v : Sess) :
    lookupPool (poolInsert l k v) k' = if k' = k then some v else lookupPool l k' := by
  induction l with
  | nil =>
    simp only [poolInsert, lookupPool]
    by_cases h : k = k'
    · subst h; simp
    · rw [if_neg h, if_neg (fun hh => h hh.symm)]
  | cons hd tl ih =>
    obtain ⟨a, b⟩ := hd
    simp only [poolInsert]
    by_cases hak : a = k
    · subst hak
      simp only [if_pos rfl, lookupPool]
      by_cases h2 : a = k'
      · subst h2; simp
      · rw [if_neg h2, if_neg h2, if_neg (fun hh => h2 hh.symm)]
    · rw [if_neg hak]
      simp only [lookupPool]
      by_cases h2 : a = k'
      · subst h2
        simp [hak]
      · rw [if_neg h2, if_neg h2, ih]

theorem all_lookup (l : List (String × Sess)) (sid : String) (s : Sess)
    (p : Sess → Bool) (hl : (l.all fun pa => p pa.2) = true)
    (h : lookupPool l sid = some s) : p s = true := by
  induction l with
  | nil => simp [lookupPool] at h
  | cons hd tl ih =>
    obtain ⟨a, b⟩ := hd
    rw [List.all_cons, Bool.and_eq_true] at hl
    by_cases hak : a = sid
    · simp only [lookupPool, if_pos hak] at h
      injection h with h
      exact h ▸ hl.1
    · simp only [lookupPool, if_neg hak] at h
      exact ih hl.2 h

theorem all_poolInsert (l : List (String × Sess)) (k : String) (v : Sess)
    (p : Sess → Bool) (hl : (l.all fun pa => p pa.2) = true)
    (hv : p v = true) : ((poolInsert l k v).all fun pa => p pa.2) = true := by
  induction l with
  | nil => simp [poolInsert, hv]
  | cons hd tl ih =>
    obtain ⟨a, b⟩ := hd
    rw [List.all_cons, Bool.and_eq_true] at hl
    by_cases hak : a = k
    · simp only [poolInsert, if_pos hak, List.all_cons, Bool.and_eq_true]
      exact ⟨hv, hl.2⟩
    · simp only [poolInsert, if_neg hak, List.all_cons, Bool.and_eq_true]
      exact ⟨hl.1, ih hl.2⟩

theorem countRel_append (sid : String) (a b : List Effect) :
    countRel sid (a ++ b) = countRel sid a + countRel sid b := by
  simp [countRel, List.count_append]

theorem countTerm_append (sid : String) (a b : List Effect) :
    countTerm sid (a ++ b) = countTerm sid a + countTerm sid b := by
  simp [countTerm, List.count_append]

theorem countRel_of_quiet (sid : String) (effs : List Effect)
    (h : effs.all quietEff = true) : countRel sid effs = 0 := by
  rw [countRel, List.count_eq_zero]
  intro hmem
  rw [List.all_eq_true] at h
  have := h _ hmem
  simp [quietEff] at this

theorem countTerm_of_quiet (sid : String) (effs : List Effect)
    (h : effs.all quietEff = true) : countTerm sid effs = 0 := by
  rw [countTerm, List.count_eq_zero]
  intro hmem
  rw [List.all_eq_true] at h
  have := h _ hmem
  simp [quietEff] at this

theorem relNat_le_one (s : Sess) : relNat s ≤ 1 := by
  unfold relNat
  split <;> omega

theorem relNatSt_le_one (st : ServiceState) (sid : String) :
    relNatSt st sid ≤ 1 := by
  unfold relNatSt
  split
  · exact relNat_le_one _
  · omega

theorem relNatSt_setSession (st : ServiceState) (k sid : String) (v : Sess) :
    relNatSt (setSession st k v) sid =
      if sid = k then relNat v else relNatSt st sid := by
  unfold relNatSt setSession
  simp only [lookup_poolInsert]
  by_cases h : sid = k
  · simp [h]
  · simp [h]

theorem relNat_congr (a b : Sess)
    (h : a.sdh.tracksStopped = b.sdh.tracksStopped) : relNat a = relNat b := by
  unfold relNat
  rw [h]

theorem relNatSt_of_lookup (st : ServiceState) (sid : String) (s : Sess)
    (h : lookupPool st.sessions sid = some s) : relNatSt st sid = relNat s := by
  unfold relNatSt
  rw [h]

theorem relNatSt_of_lookup_none (st : ServiceState) (sid : String)
    (h : lookupPool st.sessions sid = none) : relNatSt st sid = 0 := by
  unfold relNatSt
  rw [h]

theorem sessOK_spec (s : Sess) (h : sessOK s = true) :
    (s.sdh.tracksStopped = true → s.state = SessionState.Terminated) ∧
    (s.state = SessionState.Terminated → s.inStore = false) ∧
    (s.incomingListener = true ∨ 1 ≤ s.handlerCount) := by
  by_cases hst : s.state = SessionState.Terminated <;>
    cases hts : s.sdh.tracksStopped <;>
    cases hin : s.inStore <;>
    cases hil : s.incomingListener <;>
    simp_all [sessOK]

theorem sessOK_intro (s : Sess)
    (h1 : s.sdh.tracksStopped = true → s.state = SessionState.Terminated)
    (h2 : s.state = SessionState.Terminated → s.inStore = false)
    (h3 : s.incomingListener = true ∨ 1 ≤ s.handlerCount) : sessOK s = true := by
  by_cases hst : s.state = SessionState.Terminated <;>
    cases hts : s.sdh.tracksStopped <;>
    cases hin : s.inStore <;>
    cases hil : s.incomingListener <;>
    simp_all [sessOK]

theorem storeGet_eq_some (st : ServiceState) (sid : String) (s : Sess)
    (h : storeGet st sid = some s) :
    lookupPool st.sessions sid = some s ∧ s.inStore = true := by
  unfold storeGet at h
  split at h
  · rename_i t hlk
    by_cases hin : t.inStore
    · rw [if_pos hin] at h
      injection h with h
      subst h
      exact ⟨hlk, hin⟩
    · rw [if_neg hin] at h
      cases h
  · cases h

theorem storeDelete_eq (st : ServiceState) (sid : String) (s : Sess)
    (h : lookupPool st.sessions sid = some s) :
    storeDelete st sid = setSession st sid { s with inStore := false } := by
  unfold storeDelete
  rw [h]

theorem countRel_of_all_eq (sid : String) (effs : List Effect) (t : Effect)
    (h : ∀ e ∈ effs, e = t) (hne : ¬ t = Effect.releaseMedia sid) :
    countRel sid effs = 0 := by
  rw [countRel, List.count_eq_zero]
  intro hm
  exact hne (h _ hm).symm

theorem countTerm_of_all_eq (sid : String) (effs : List Effect) (t : Effect)
    (h : ∀ e ∈ effs, e = t)
    (hne : ¬ t = Effect.callStateChange sid SessionState.Terminated) :
    countTerm sid effs = 0 := by
  rw [countTerm, List.count_eq_zero]
  intro hm
  exact hne (h _ hm).symm

/-- Common pattern: a step that leaves the state untouched and emits only
quiet effects satisfies the bookkeeping bounds. -/
theorem preserves_trivial (st : ServiceState) (effs : List Effect) (sid : String)
    (hInv : InvB st = true) (hq : effs.all quietEff = true) :
    InvB st = true ∧
    countRel sid effs + relNatSt st sid ≤ relNatSt st sid ∧
    countTerm sid effs = 0 := by
  refine ⟨hInv, ?_, countTerm_of_quiet _ _ hq⟩
  rw [countRel_of_quiet _ _ hq]
  omega

/-- Common pattern: a step that replaces the session under `k` without
touching `tracksStopped`, emitting only quiet effects. -/
theorem preserves_set (st : ServiceState) (k : String) (oldS newS : Sess)
    (effs : List Effect) (sid : String)
    (hInv : InvB st = true)
    (hlk : lookupPool st.sessions k = some oldS)
    (hstop : newS.sdh.tracksStopped = oldS.sdh.tracksStopped)
    (hOK : sessOK newS = true)
    (hq : effs.all quietEff = true) :
    InvB (setSession st k newS) = true ∧
    countRel sid effs + relNatSt st sid ≤ relNatSt (setSession st k newS) sid ∧
    countTerm sid effs = 0 := by
  refine ⟨all_poolInsert _ _ _ _ hInv hOK, ?_, countTerm_of_quiet _ _ hq⟩
  rw [countRel_of_quiet _ _ hq, relNatSt_setSession]
  by_cases h : sid = k
  · rw [if_pos h, h, relNatSt_of_lookup st k oldS hlk, relNat_congr newS oldS hstop]
    omega
  · rw [if_neg h]
    omega

/-- Common pattern: a step that inserts a fresh session with live tracks,
emitting only quiet effects. -/
theorem preserves_insert_fresh (st : ServiceState) (k : String) (newS : Sess)
    (effs : List Effect) (sid : String)
    (hInv : InvB st = true)
    (hlk : lookupPool st.sessions k = none)
    (hstop : newS.sdh.tracksStopped = false)
    (hOK : sessOK newS = true)
    (hq : effs.all quietEff = true) :
    InvB (setSession st k newS) = true ∧
    countRel sid effs + relNatSt st sid ≤ relNatSt (setSession st k newS) sid ∧
    countTerm sid effs = 0 := by
  refine ⟨all_poolInsert _ _ _ _ hInv hOK, ?_, countTerm_of_quiet _ _ hq⟩
  rw [countRel_of_quiet _ _ hq, relNatSt_setSession]
  by_cases h : sid = k
  · rw [if_pos h, h, relNatSt_of_lookup_none st k hlk]
    unfold relNat
    rw [hstop]
    simp
  · rw [if_neg h]
    omega

theorem setupStep_term (sid : String) (s : Sess) :
    (setupListenerStep sid SessionState.Terminated s).1.state = s.state ∧
    (setupListenerStep sid SessionState.Terminated s).1.handlerCount = s.handlerCount ∧
    (setupListenerStep sid SessionState.Terminated s).1.incomingListener = s.incomingListener ∧
    (setupListenerStep sid SessionState.Terminated s).1.inStore = false ∧
    countRel sid (setupListenerStep sid SessionState.Terminated s).2 + relNat s ≤
      relNat (setupListenerStep sid SessionState.Terminated s).1 ∧
    ∀ e ∈ (setupListenerStep sid SessionState.Terminated s).2,
      e = Effect.releaseMedia sid := by
  cases hs : s.sdh.hasLocalStream <;> cases ht : s.sdh.tracksStopped <;>
    simp [setupListenerStep, countRel, relNat, hs, ht]

theorem iter_term (sid : String) : ∀ (n : Nat) (s : Sess),
    (iterListeners sid SessionState.Terminated n s).1.state = s.state ∧
    (iterListeners sid SessionState.Terminated n s).1.handlerCount = s.handlerCount ∧
    (iterListeners sid SessionState.Terminated n s).1.incomingListener = s.incomingListener ∧
    ((1 ≤ n ∨ s.inStore = false) →
      (iterListeners sid SessionState.Terminated n s).1.inStore = false) ∧
    countRel sid (iterListeners sid SessionState.Terminated n s).2 + relNat s ≤
      relNat (iterListeners sid SessionState.Terminated n s).1 ∧
    ∀ e ∈ (iterListeners sid SessionState.Terminated n s).2,
      e = Effect.releaseMedia sid := by
  intro n
  induction n with
  | zero =>
    intro s
    refine ⟨rfl, rfl, rfl, ?_, ?_, ?_⟩
    · rintro (h | h)
      · omega
      · exact h
    · simp [iterListeners, countRel]
    · simp [iterListeners]
  | succ n ih =>
    intro s
    obtain ⟨a1, b1, c1, d1, e1, f1⟩ := setupStep_term sid s
    obtain ⟨a2, b2, c2, d2, e2, f2⟩ :=
      ih (setupListenerStep sid SessionState.Terminated s).1
    refine ⟨?_, ?_, ?_, ?_, ?_, ?_⟩
    · simp only [iterListeners]
      rw [a2, a1]
    · simp only [iterListeners]
      rw [b2, b1]
    · simp only [iterListeners]
      rw [c2, c1]
    · intro _
      simp only [iterListeners]
      exact d2 (Or.inr d1)
    · simp only [iterListeners, countRel_append]
      omega
    · simp only [iterListeners, List.mem_append]
      rintro e (he | he)
      · exact f1 e he
      · exact f2 e he

theorem setupStep_nonterm (sid : String) (ns : SessionState)
    (hns : ns ≠ SessionState.Terminated) (s : Sess) :
    (setupListenerStep sid ns s).1.state = s.state ∧
    (setupListenerStep sid ns s).1.handlerCount = s.handlerCount ∧
    (setupListenerStep sid ns s).1.incomingListener = s.incomingListener ∧
    (setupListenerStep sid ns s).1.inStore = s.inStore ∧
    (s.sdh.tracksStopped = false →
      (setupListenerStep sid ns s).1.sdh.tracksStopped = false) ∧
    ∀ e ∈ (setupListenerStep sid ns s).2, e = Effect.callStateChange sid ns := by
  by_cases hes : ns = SessionState.Established <;>
    cases hp : s.pendingStream <;> cases hin : s.inStore <;>
      simp [setupListenerStep, hns, hes, hp, hin]

theorem iter_nonterm (sid : String) (ns : SessionState)
    (hns : ns ≠ SessionState.Terminated) : ∀ (n : Nat) (s : Sess),
    (iterListeners sid ns n s).1.state = s.state ∧
    (iterListeners sid ns n s).1.handlerCount = s.handlerCount ∧
    (iterListeners sid ns n s).1.incomingListener = s.incomingListener ∧
    (iterListeners sid ns n s).1.inStore = s.inStore ∧
    (s.sdh.tracksStopped = false →
      (iterListeners sid ns n s).1.sdh.tracksStopped = false) ∧
    ∀ e ∈ (iterListeners sid ns n s).2, e = Effect.callStateChange sid ns := by
  intro n
  induction n with
  | zero =>
    intro s
    refine ⟨rfl, rfl, rfl, rfl, fun h => h, ?_⟩
    simp [iterListeners]
  | succ n ih =>
    intro s
    obtain ⟨a1, b1, c1, d1, e1, f1⟩ := setupStep_nonterm sid ns hns s
    obtain ⟨a2, b2, c2, d2, e2, f2⟩ := ih (setupListenerStep sid ns s).1
    refine ⟨?_, ?_, ?_, ?_, ?_, ?_⟩
    · simp only [iterListeners]
      rw [a2, a1]
    · simp only [iterListeners]
      rw [b2, b1]
    · simp only [iterListeners]
      rw [c2, c1]
    · simp only [iterListeners]
      rw [d2, d1]
    · intro h
      simp only [iterListeners]
      exact e2 (e1 h)
    · simp only [iterListeners, List.mem_append]
      rintro e (he | he)
      · exact f1 e he
      · exact f2 e he

theorem rank_le_four (s : SessionState) : SessionState.rank s ≤ 4 := by
  cases s <;> simp [SessionState.rank]

theorem deliver_none (st : ServiceState) (sid' : String) (ns : SessionState)
    (h : lookupPool st.sessions sid' = none) :
    deliverState st sid' ns = (st, []) := by
  unfold deliverState
  simp only [h]

theorem deliver_noguard (st : ServiceState) (sid' : String) (ns : SessionState)
    (sess : Sess) (h : lookupPool st.sessions sid' = some sess)
    (hrank : ¬ sess.state.rank < ns.rank) :
    deliverState st sid' ns = (st, []) := by
  unfold deliverState
  simp only [h]
  rw [if_neg hrank]

/-- The session value and effects computed by a guarded `stateChange`
delivery, before writing back to the pool. -/
def deliverCore (sid' : String) (ns : SessionState) (sess : Sess) :
    Sess × List Effect :=
  iterListeners sid' ns sess.handlerCount
    (if sess.incomingListener && decide (ns = SessionState.Terminated) then
      { sess with state := ns, inStore := false }
    else { sess with state := ns })

theorem deliver_guard (st : ServiceState) (sid' : String) (ns : SessionState)
    (sess : Sess) (h : lookupPool st.sessions sid' = some sess)
    (hrank : sess.state.rank < ns.rank) :
    deliverState st sid' ns =
      (setSession st sid' (deliverCore sid' ns sess).1, (deliverCore sid' ns sess).2) := by
  unfold deliverState deliverCore
  simp only [h]
  rw [if_pos hrank]

theorem deliver_guard_fst (st : ServiceState) (sid' : String) (ns : SessionState)
    (sess : Sess) (h : lookupPool st.sessions sid' = some sess)
    (hrank : sess.state.rank < ns.rank) :
    (deliverState st sid' ns).1 = setSession st sid' (deliverCore sid' ns sess).1 := by
  rw [deliver_guard st sid' ns sess h hrank]

theorem deliver_guard_snd (st : ServiceState) (sid' : String) (ns : SessionState)
    (sess : Sess) (h : lookupPool st.sessions sid' = some sess)
    (hrank : sess.state.rank < ns.rank) :
    (deliverState st sid' ns).2 = (deliverCore sid' ns sess).2 := by
  rw [deliver_guard st sid' ns sess h hrank]

theorem deliver_preserves (st : ServiceState) (sid' : String) (ns : SessionState)
    (sid : String) (hInv : InvB st = true) :
    InvB (deliverState st sid' ns).1 = true ∧
    countRel sid (deliverState st sid' ns).2 + relNatSt st sid ≤
      relNatSt (deliverState st sid' ns).1 sid ∧
    countTerm sid (deliverState st sid' ns).2 = 0 := by
  cases hlk : lookupPool st.sessions sid' with
  | none =>
    rw [deliver_none st sid' ns hlk]
    refine ⟨hInv, ?_, rfl⟩
    simp [countRel]
  | some sess =>
    by_cases hrank : sess.state.rank < ns.rank
    · rw [deliver_guard_fst st sid' ns sess hlk hrank,
        deliver_guard_snd st sid' ns sess hlk hrank]
      have hOK := sessOK_spec sess (all_lookup _ _ _ _ hInv hlk)
      by_cases hterm : ns = SessionState.Terminated
      · subst hterm
        set s1 : Sess :=
          (if sess.incomingListener && decide
              (SessionState.Terminated = SessionState.Terminated) then
            { sess with state := SessionState.Terminated, inStore := false }
          else { sess with state := SessionState.Terminated }) with hs1
        obtain ⟨a2, b2, c2, d2, e2, f2⟩ :=
          iter_term sid' sess.handlerCount s1
        have hs1state : s1.state = SessionState.Terminated := by
          rw [hs1]
          split <;> rfl
        have hs1rel : relNat s1 = relNat sess := by
          rw [hs1]
          split <;> rfl
        have hs1hc : s1.handlerCount = sess.handlerCount := by
          rw [hs1]
          split <;> rfl
        have hs1il : s1.incomingListener = sess.incomingListener := by
          rw [hs1]
          split <;> rfl
        have hcore : deliverCore sid' SessionState.Terminated sess =
            iterListeners sid' SessionState.Terminated sess.handlerCount s1 := by
          unfold deliverCore
          rw [← hs1]
        have hRes : (deliverCore sid' SessionState.Terminated sess).1.inStore = false := by
          rw [hcore]
          rcases hOK.2.2 with hil | hhc
          · apply d2
            right
            rw [hs1, if_pos]
            simp [hil]
          · exact d2 (Or.inl hhc)
        have hResState :
            (deliverCore sid' SessionState.Terminated sess).1.state =
              SessionState.Terminated := by
          rw [hcore, a2, hs1state]
        have hResOK : sessOK (deliverCore sid' SessionState.Terminated sess).1 = true := by
          apply sessOK_intro
          · intro _
            exact hResState
          · intro _
            exact hRes
          · rw [hcore, c2, b2, hs1il, hs1hc]
            exact hOK.2.2
        have hEffs : ∀ e ∈ (deliverCore sid' SessionState.Terminated sess).2,
            e = Effect.releaseMedia sid' := by
          rw [hcore]
          exact f2
        refine ⟨all_poolInsert _ _ _ _ hInv hResOK, ?_, ?_⟩
        · rw [relNatSt_setSession]
          by_cases hsid : sid = sid'
          · subst hsid
            rw [if_pos rfl, relNatSt_of_lookup st sid sess hlk]
            have hb : countRel sid (deliverCore sid SessionState.Terminated sess).2 +
                relNat s1 ≤ relNat (deliverCore sid SessionState.Terminated sess).1 := by
              rw [hcore]
              exact e2
            omega
          · rw [if_neg hsid]
            rw [countRel_of_all_eq sid _ (Effect.releaseMedia sid') hEffs]
            · omega
            · intro h
              injection h with h
              exact hsid h.symm
        · exact countTerm_of_all_eq sid _ (Effect.releaseMedia sid') hEffs (by simp)
      · have hcond : (sess.incomingListener &&
            decide (ns = SessionState.Terminated)) = false := by
          simp [hterm]
        have hstop : sess.sdh.tracksStopped = false := by
          cases hts : sess.sdh.tracksStopped
          · rfl
          · have h4 := hOK.1 hts
            rw [h4, SessionState.rank] at hrank
            have h5 := rank_le_four ns
            omega
        set s1 : Sess := { sess with state := ns } with hs1
        obtain ⟨a2, b2, c2, d2, e2, f2⟩ := iter_nonterm sid' ns hterm sess.handlerCount s1
        have hcore : deliverCore sid' ns sess =
            iterListeners sid' ns sess.handlerCount s1 := by
          unfold deliverCore
          rw [hcond, hs1]
          simp
        have hs1stop : s1.sdh.tracksStopped = false := hstop
        have hResStop : (deliverCore sid' ns sess).1.sdh.tracksStopped = false := by
          rw [hcore]
          exact e2 hs1stop
        have hResOK : sessOK (deliverCore sid' ns sess).1 = true := by
          apply sessOK_intro
          · intro h
            rw [hResStop] at h
            cases h
          · intro h
            rw [hcore, a2] at h
            exact absurd h hterm
          · rw [hcore, c2, b2]
            exact hOK.2.2
        have hEffs : ∀ e ∈ (deliverCore sid' ns sess).2,
            e = Effect.callStateChange sid' ns := by
          rw [hcore]
          exact f2
        refine ⟨all_poolInsert _ _ _ _ hInv hResOK, ?_, ?_⟩
        · rw [relNatSt_setSession,
            countRel_of_all_eq sid _ (Effect.callStateChange sid' ns) hEffs (by simp)]
          by_cases hsid : sid = sid'
          · subst hsid
            rw [if_pos rfl, relNatSt_of_lookup st sid sess hlk]
            unfold relNat
            rw [hstop, hResStop]
            simp
          · rw [if_neg hsid]
            omega
        · apply countTerm_of_all_eq sid _ (Effect.callStateChange sid' ns) hEffs
          intro h
          injection h with h1 h2
          exact hterm h2
    · rw [deliver_noguard st sid' ns sess hlk hrank]
      refine ⟨hInv, ?_, rfl⟩
      simp [countRel]

/-! Branch equations for each service method, used both by the claim
theorems and by the trace-level bookkeeping proofs. -/

theorem makeCall_notInit (st : ServiceState) (sid' : String) (a v tv mOk iOk : Bool)
    (hi : st.initialized = false) :
    makeCall st sid' a v tv mOk iOk = (Except.error Err.notInitialized, st, []) := by
  unfold makeCall
  simp [hi]

theorem makeCall_badTarget (st : ServiceState) (sid' : String) (a v mOk iOk : Bool)
    (hi : st.initialized = true) :
    makeCall st sid' a v false mOk iOk = (Except.error Err.invalidTarget, st, []) := by
  unfold makeCall
  simp [hi]

theorem makeCall_mediaFail (st : ServiceState) (sid' : String) (a v iOk : Bool)
    (hi : st.initialized = true) :
    makeCall st sid' a v true false iOk =
      (Except.error Err.mediaAcquisitionFailed, st, [Effect.acquireMedia a v]) := by
  unfold makeCall
  simp [hi]

theorem makeCall_ok (st : ServiceState) (sid' : String) (a v : Bool)
    (hi : st.initialized = true) :
    makeCall st sid' a v true true true =
      (Except.ok sid', setSession st sid' freshOutgoingSession,
       [Effect.acquireMedia a v, Effect.sendInvite sid']) := by
  unfold makeCall
  simp [hi]

theorem makeCall_inviteFail (st : ServiceState) (sid' : String) (a v : Bool)
    (hi : st.initialized = true) :
    makeCall st sid' a v true true false =
      (Except.error Err.inviteFailed, setSession st sid' freshOutgoingSession,
       [Effect.acquireMedia a v, Effect.sendInvite sid']) := by
  unfold makeCall
  simp [hi]

theorem answerCall_notFound (st : ServiceState) (sid' : String) (a v mOk aOk : Bool)
    (h : storeGet st sid' = none) :
    answerCall st sid' a v mOk aOk =
      (Except.error Err.invalidSessionOrNotFound, st, []) := by
  unfold answerCall
  simp [h]

theorem answerCall_wrongDir (st : ServiceState) (sid' : String) (a v mOk aOk : Bool)
    (sess : Sess) (h : storeGet st sid' = some sess)
    (hd : sess.direction = Direction.Outgoing) :
    answerCall st sid' a v mOk aOk =
      (Except.error Err.invalidSessionOrNotFound, st, []) := by
  unfold answerCall
  simp [h, hd]

theorem answerCall_mediaFail (st : ServiceState) (sid' : String) (a v aOk : Bool)
    (sess : Sess) (h : storeGet st sid' = some sess)
    (hd : sess.direction = Direction.Incoming) :
    answerCall st sid' a v false aOk =
      (Except.error Err.mediaAcquisitionFailed, st, [Effect.acquireMedia a v]) := by
  unfold answerCall
  simp [h, hd]

theorem answerCall_accept (st : ServiceState) (sid' : String) (a v : Bool)
    (sess : Sess) (h : storeGet st sid' = some sess)
    (hd : sess.direction = Direction.Incoming) :
    answerCall st sid' a v true true =
      (Except.ok (),
       setSession st sid'
         { sess with handlerCount := sess.handlerCount + 1, pendingStream := true },
       [Effect.acquireMedia a v, Effect.sendAccept sid',
        Effect.callStateChange sid' sess.state]) := by
  unfold answerCall
  simp [h, hd]

theorem answerCall_acceptFail (st : ServiceState) (sid' : String) (a v : Bool)
    (sess : Sess) (h : storeGet st sid' = some sess)
    (hd : sess.direction = Direction.Incoming) :
    answerCall st sid' a v true false =
      (Except.error Err.acceptFailed,
       setSession st sid'
         { sess with handlerCount := sess.handlerCount + 1, pendingStream := true },
       [Effect.acquireMedia a v, Effect.sendAccept sid']) := by
  unfold answerCall
  simp [h, hd]

theorem rejectCall_notFound (st : ServiceState) (sid' : String) (rOk : Bool)
    (h : storeGet st sid' = none) :
    rejectCall st sid' rOk =
      (Except.error Err.invalidSessionOrNotFound, st, []) := by
  unfold rejectCall
  simp [h]

theorem rejectCall_wrongDir (st : ServiceState) (sid' : String) (rOk : Bool)
    (sess : Sess) (h : storeGet st sid' = some sess)
    (hd : sess.direction = Direction.Outgoing) :
    rejectCall st sid' rOk =
      (Except.error Err.invalidSessionOrNotFound, st, []) := by
  unfold rejectCall
  simp [h, hd]

theorem rejectCall_ok (st : ServiceState) (sid' : String)
    (sess : Sess) (h : storeGet st sid' = some sess)
    (hd : sess.direction = Direction.Incoming) :
    rejectCall st sid' true =
      (Except.ok (), storeDelete st sid', [Effect.sendReject sid']) := by
  unfold rejectCall
  simp [h, hd]

theorem rejectCall_fail (st : ServiceState) (sid' : String)
    (sess : Sess) (h : storeGet st sid' = some sess)
    (hd : sess.direction = Direction.Incoming) :
    rejectCall st sid' false =
      (Except.error Err.rejectFailed, st, [Effect.sendReject sid']) := by
  unfold rejectCall
  simp [h, hd]

theorem hangupCall_notFound (st : ServiceState) (sid' : String) (sOk : Bool)
    (h : storeGet st sid' = none) :
    hangupCall st sid' sOk = (Except.error Err.sessionNotFound, st, []) := by
  unfold hangupCall
  simp [h]

theorem hangupCall_cancel_ok (st : ServiceState) (sid' : String)
    (sess : Sess) (h : storeGet st sid' = some sess)
    (hst : sess.state = SessionState.Initial ∨ sess.state = SessionState.Establishing) :
    hangupCall st sid' true =
      (Except.ok (), storeDelete st sid', [Effect.sendCancel sid']) := by
  unfold hangupCall
  rcases hst with hst | hst <;> simp [h, hst]

theorem hangupCall_cancel_fail (st : ServiceState) (sid' : String)
    (sess : Sess) (h : storeGet st sid' = some sess)
    (hst : sess.state = SessionState.Initial ∨ sess.state = SessionState.Establishing) :
    hangupCall st sid' false =
      (Except.error Err.signalFailed, st, [Effect.sendCancel sid']) := by
  unfold hangupCall
  rcases hst with hst | hst <;> simp [h, hst]

theorem hangupCall_bye_ok (st : ServiceState) (sid' : String)
    (sess : Sess) (h : storeGet st sid' = some sess)
    (hst : sess.state = SessionState.Established) :
    hangupCall st sid' true =
      (Except.ok (), storeDelete st sid', [Effect.sendBye sid']) := by
  unfold hangupCall
  simp [h, hst]

theorem hangupCall_bye_fail (st : ServiceState) (sid' : String)
    (sess : Sess) (h : storeGet st sid' = some sess)
    (hst : sess.state = SessionState.Established) :
    hangupCall st sid' false =
      (Except.error Err.signalFailed, st, [Effect.sendBye sid']) := by
  unfold hangupCall
  simp [h, hst]

theorem hangupCall_late (st : ServiceState) (sid' : String) (sOk : Bool)
    (sess : Sess) (h : storeGet st sid' = some sess)
    (hst : sess.state = SessionState.Terminating ∨ sess.state = SessionState.Terminated) :
    hangupCall st sid' sOk = (Except.ok (), storeDelete st sid', []) := by
  unfold hangupCall
  rcases hst with hst | hst <;> simp [h, hst]

theorem toggleHold_notFound (st : ServiceState) (sid' : String) (hOk : Bool)
    (h : storeGet st sid' = none) :
    toggleHold st sid' hOk = (Except.error Err.noEstablishedSession, st, []) := by
  unfold toggleHold
  simp [h]

theorem toggleHold_wrongState (st : ServiceState) (sid' : String) (hOk : Bool)
    (sess : Sess) (h : storeGet st sid' = some sess)
    (hst : sess.state ≠ SessionState.Established) :
    toggleHold st sid' hOk = (Except.error Err.noEstablishedSession, st, []) := by
  unfold toggleHold
  simp [h, hst]

theorem toggleHold_hold (st : ServiceState) (sid' : String)
    (sess : Sess) (h : storeGet st sid' = some sess)
    (hst : sess.state = SessionState.Established)
    (hh : sess.sdh.localHold = false) :
    toggleHold st sid' true =
      (Except.ok (),
       setSession st sid' { sess with sdh := { sess.sdh with localHold := true } },
       [Effect.mediaHold sid']) := by
  unfold toggleHold
  simp [h, hst, hh]

theorem toggleHold_unhold (st : ServiceState) (sid' : String)
    (sess : Sess) (h : storeGet st sid' = some sess)
    (hst : sess.state = SessionState.Established)
    (hh : sess.sdh.localHold = true) :
    toggleHold st sid' true =
      (Except.ok (),
       setSession st sid' { sess with sdh := { sess.sdh with localHold := false } },
       [Effect.mediaUnhold sid']) := by
  unfold toggleHold
  simp [h, hst, hh]

theorem toggleHold_holdFail (st : ServiceState) (sid' : String)
    (sess : Sess) (h : storeGet st sid' = some sess)
    (hst : sess.state = SessionState.Established)
    (hh : sess.sdh.localHold = false) :
    toggleHold st sid' false =
      (Except.error Err.mediaOpFailed, st, [Effect.mediaHold sid']) := by
  unfold toggleHold
  simp [h, hst, hh]

theorem toggleHold_unholdFail (st : ServiceState) (sid' : String)
    (sess : Sess) (h : storeGet st sid' = some sess)
    (hst : sess.state = SessionState.Established)
    (hh : sess.sdh.localHold = true) :
    toggleHold st sid' false =
      (Except.error Err.mediaOpFailed, st, [Effect.mediaUnhold sid']) := by
  unfold toggleHold
  simp [h, hst, hh]

theorem toggleMute_notFound (st : ServiceState) (sid' : String)
    (h : storeGet st sid' = none) :
    toggleMute st sid' = (Except.error Err.noEstablishedSession, st, []) := by
  unfold toggleMute
  simp [h]

theorem toggleMute_wrongState (st : ServiceState) (sid' : String)
    (sess : Sess) (h : storeGet st sid' = some sess)
    (hst : sess.state ≠ SessionState.Established) :
    toggleMute st sid' = (Except.error Err.noEstablishedSession, st, []) := by
  unfold toggleMute
  simp [h, hst]

theorem toggleMute_flip (st : ServiceState) (sid' : String)
    (sess : Sess) (h : storeGet st sid' = some sess)
    (hst : sess.state = SessionState.Established)
    (hs : sess.sdh.hasLocalStream = true) :
    toggleMute st sid' =
      (Except.ok (),
       setSession st sid'
         { sess with sdh := { sess.sdh with audioEnabled := !sess.sdh.audioEnabled } },
       []) := by
  unfold toggleMute
  simp [h, hst, hs]

theorem toggleMute_noStream (st : ServiceState) (sid' : String)
    (sess : Sess) (h : storeGet st sid' = some sess)
    (hst : sess.state = SessionState.Established)
    (hs : sess.sdh.hasLocalStream = false) :
    toggleMute st sid' = (Except.ok (), st, []) := by
  unfold toggleMute
  simp [h, hst, hs]

theorem sendDTMF_notFound (st : ServiceState) (sid' tone : String) (iOk : Bool)
    (h : storeGet st sid' = none) :
    sendDTMF st sid' tone iOk = (Except.error Err.noEstablishedSession, st, []) := by
  unfold sendDTMF
  simp [h]

theorem sendDTMF_wrongState (st : ServiceState) (sid' tone : String) (iOk : Bool)
    (sess : Sess) (h : storeGet st sid' = some sess)
    (hst : sess.state ≠ SessionState.Established) :
    sendDTMF st sid' tone iOk = (Except.error Err.noEstablishedSession, st, []) := by
  unfold sendDTMF
  simp [h, hst]

theorem sendDTMF_ok (st : ServiceState) (sid' tone : String)
    (sess : Sess) (h : storeGet st sid' = some sess)
    (hst : sess.state = SessionState.Established) :
    sendDTMF st sid' tone true = (Except.ok (), st, [Effect.sendInfo sid' tone]) := by
  unfold sendDTMF
  simp [h, hst]

theorem sendDTMF_fail (st : ServiceState) (sid' tone : String)
    (sess : Sess) (h : storeGet st sid' = some sess)
    (hst : sess.state = SessionState.Established) :
    sendDTMF st sid' tone false =
      (Except.error Err.infoFailed, st, [Effect.sendInfo sid' tone]) := by
  unfold sendDTMF
  simp [h, hst]

/-! Per-operation preservation of the store invariant and of the
release/terminated-event bookkeeping. -/

theorem makeCall_preserves (st : ServiceState) (sid' : String)
    (a v tv mOk iOk : Bool) (sid : String) (hInv : InvB st = true)
    (hfresh : lookupPool st.sessions sid' = none) :
    InvB (makeCall st sid' a v tv mOk iOk).2.1 = true ∧
    countRel sid (makeCall st sid' a v tv mOk iOk).2.2 + relNatSt st sid ≤
      relNatSt (makeCall st sid' a v tv mOk iOk).2.1 sid ∧
    countTerm sid (makeCall st sid' a v tv mOk iOk).2.2 = 0 := by
  cases hi : st.initialized
  · rw [makeCall_notInit st sid' a v tv mOk iOk hi]
    exact preserves_trivial st [] sid hInv rfl
  · cases tv
    · rw [makeCall_badTarget st sid' a v mOk iOk hi]
      exact preserves_trivial st [] sid hInv rfl
    · cases mOk
      · rw [makeCall_mediaFail st sid' a v iOk hi]
        exact preserves_trivial st _ sid hInv rfl
      · cases iOk
        · rw [makeCall_inviteFail st sid' a v hi]
          exact preserves_insert_fresh st sid' freshOutgoingSession _ sid
            hInv hfresh rfl rfl rfl
        · rw [makeCall_ok st sid' a v hi]
          exact preserves_insert_fresh st sid' freshOutgoingSession _ sid
            hInv hfresh rfl rfl rfl

theorem answerCall_preserves (st : ServiceState) (sid' : String)
    (a v mOk aOk : Bool) (sid : String) (hInv : InvB st = true) :
    InvB (answerCall st sid' a v mOk aOk).2.1 = true ∧
    countRel sid (answerCall st sid' a v mOk aOk).2.2 + relNatSt st sid ≤
      relNatSt (answerCall st sid' a v mOk aOk).2.1 sid ∧
    countTerm sid (answerCall st sid' a v mOk aOk).2.2 = 0 := by
  cases hsg : storeGet st sid' with
  | none =>
    rw [answerCall_notFound st sid' a v mOk aOk hsg]
    exact preserves_trivial st [] sid hInv rfl
  | some sess =>
    obtain ⟨hlk, hin⟩ := storeGet_eq_some st sid' sess hsg
    have hOK := sessOK_spec sess (all_lookup _ _ _ _ hInv hlk)
    have hterm : sess.state ≠ SessionState.Terminated := by
      intro h
      rw [hOK.2.1 h] at hin
      cases hin
    cases hd : sess.direction
    · rw [answerCall_wrongDir st sid' a v mOk aOk sess hsg hd]
      exact preserves_trivial st [] sid hInv rfl
    · cases mOk
      · rw [answerCall_mediaFail st sid' a v aOk sess hsg hd]
        exact preserves_trivial st _ sid hInv rfl
      · have hOK2 : sessOK { sess with
            handlerCount := sess.handlerCount + 1, pendingStream := true } = true := by
          apply sessOK_intro
          · exact hOK.1
          · exact hOK.2.1
          · right
            show 1 ≤ sess.handlerCount + 1
            omega
        cases aOk
        · rw [answerCall_acceptFail st sid' a v sess hsg hd]
          exact preserves_set st sid' sess _ _ sid hInv hlk rfl hOK2 rfl
        · rw [answerCall_accept st sid' a v sess hsg hd]
          refine preserves_set st sid' sess _ _ sid hInv hlk rfl hOK2 ?_
          simp [quietEff, hterm]

theorem rejectCall_preserves (st : ServiceState) (sid' : String)
    (rOk : Bool) (sid : String) (hInv : InvB st = true) :
    InvB (rejectCall st sid' rOk).2.1 = true ∧
    countRel sid (rejectCall st sid' rOk).2.2 + relNatSt st sid ≤
      relNatSt (rejectCall st sid' rOk).2.1 sid ∧
    countTerm sid (rejectCall st sid' rOk).2.2 = 0 := by
  cases hsg : storeGet st sid' with
  | none =>
    rw [rejectCall_notFound st sid' rOk hsg]
    exact preserves_trivial st [] sid hInv rfl
  | some sess =>
    obtain ⟨hlk, hin⟩ := storeGet_eq_some st sid' sess hsg
    have hOK := sessOK_spec sess (all_lookup _ _ _ _ hInv hlk)
    cases hd : sess.direction
    · rw [rejectCall_wrongDir st sid' rOk sess hsg hd]
      exact preserves_trivial st [] sid hInv rfl
    · have hOK2 : sessOK { sess with inStore := false } = true := by
        apply sessOK_intro
        · exact hOK.1
        · intro _
          rfl
        · exact hOK.2.2
      cases rOk
      · rw [rejectCall_fail st sid' sess hsg hd]
        exact preserves_trivial st _ sid hInv rfl
      · rw [rejectCall_ok st sid' sess hsg hd, storeDelete_eq st sid' sess hlk]
        exact preserves_set st sid' sess _ _ sid hInv hlk rfl hOK2 rfl

theorem hangupCall_preserves (st : ServiceState) (sid' : String)
    (sOk : Bool) (sid : String) (hInv : InvB st = true) :
    InvB (hangupCall st sid' sOk).2.1 = true ∧
    countRel sid (hangupCall st sid' sOk).2.2 + relNatSt st sid ≤
      relNatSt (hangupCall st sid' sOk).2.1 sid ∧
    countTerm sid (hangupCall st sid' sOk).2.2 = 0 := by
  cases hsg : storeGet st sid' with
  | none =>
    rw [hangupCall_notFound st sid' sOk hsg]
    exact preserves_trivial st [] sid hInv rfl
  | some sess =>
    obtain ⟨hlk, hin⟩ := storeGet_eq_some st sid' sess hsg
    have hOK := sessOK_spec sess (all_lookup _ _ _ _ hInv hlk)
    have hOK2 : sessOK { sess with inStore := false } = true := by
      apply sessOK_intro
      · exact hOK.1
      · intro _
        rfl
      · exact hOK.2.2
    cases hst : sess.state
    · cases sOk
      · rw [hangupCall_cancel_fail st sid' sess hsg (Or.inl hst)]
        exact preserves_trivial st _ sid hInv rfl
      · rw [hangupCall_cancel_ok st sid' sess hsg (Or.inl hst),
          storeDelete_eq st sid' sess hlk]
        exact preserves_set st sid' sess _ _ sid hInv hlk rfl hOK2 rfl
    · cases sOk
      · rw [hangupCall_cancel_fail st sid' sess hsg (Or.inr hst)]
        exact preserves_trivial st _ sid hInv rfl
      · rw [hangupCall_cancel_ok st sid' sess hsg (Or.inr hst),
          storeDelete_eq st sid' sess hlk]
        exact preserves_set st sid' sess _ _ sid hInv hlk rfl hOK2 rfl
    · cases sOk
      · rw [hangupCall_bye_fail st sid' sess hsg hst]
        exact preserves_trivial st _ sid hInv rfl
      · rw [hangupCall_bye_ok st sid' sess hsg hst,
          storeDelete_eq st sid' sess hlk]
        exact preserves_set st sid' sess _ _ sid hInv hlk rfl hOK2 rfl
    · rw [hangupCall_late st sid' sOk sess hsg (Or.inl hst),
        storeDelete_eq st sid' sess hlk]
      exact preserves_set st sid' sess _ _ sid hInv hlk rfl hOK2 rfl
    · rw [hangupCall_late st sid' sOk sess hsg (Or.inr hst),
        storeDelete_eq st sid' sess hlk]
      exact preserves_set st sid' sess _ _ sid hInv hlk rfl hOK2 rfl

theorem toggleHold_preserves (st : ServiceState) (sid' : String)
    (hOk : Bool) (sid : String) (hInv : InvB st = true) :
    InvB (toggleHold st sid' hOk).2.1 = true ∧
    countRel sid (toggleHold st sid' hOk).2.2 + relNatSt st sid ≤
      relNatSt (toggleHold st sid' hOk).2.1 sid ∧
    countTerm sid (toggleHold st sid' hOk).2.2 = 0 := by
  cases hsg : storeGet st sid' with
  | none =>
    rw [toggleHold_notFound st sid' hOk hsg]
    exact preserves_trivial st [] sid hInv rfl
  | some sess =>
    obtain ⟨hlk, hin⟩ := storeGet_eq_some st sid' sess hsg
    have hOK := sessOK_spec sess (all_lookup _ _ _ _ hInv hlk)
    by_cases hst : sess.state = SessionState.Established
    · have hOKh : ∀ b, sessOK { sess with sdh := { sess.sdh with localHold := b } } = true := by
        intro b
        apply sessOK_intro
        · exact hOK.1
        · exact hOK.2.1
        · exact hOK.2.2
      cases hh : sess.sdh.localHold
      · cases hOk
        · rw [toggleHold_holdFail st sid' sess hsg hst hh]
          exact preserves_trivial st _ sid hInv rfl
        · rw [toggleHold_hold st sid' sess hsg hst hh]
          exact preserves_set st sid' sess _ _ sid hInv hlk rfl (hOKh true) rfl
      · cases hOk
        · rw [toggleHold_unholdFail st sid' sess hsg hst hh]
          exact preserves_trivial st _ sid hInv rfl
        · rw [toggleHold_unhold st sid' sess hsg hst hh]
          exact preserves_set st sid' sess _ _ sid hInv hlk rfl (hOKh false) rfl
    · rw [toggleHold_wrongState st sid' hOk sess hsg hst]
      exact preserves_trivial st [] sid hInv rfl

theorem toggleMute_preserves (st : ServiceState) (sid' : String)
    (sid : String) (hInv : InvB st = true) :
    InvB (toggleMute st sid').2.1 = true ∧
    countRel sid (toggleMute st sid').2.2 + relNatSt st sid ≤
      relNatSt (toggleMute st sid').2.1 sid ∧
    countTerm sid (toggleMute st sid').2.2 = 0 := by
  cases hsg : storeGet st sid' with
  | none =>
    rw [toggleMute_notFound st sid' hsg]
    exact preserves_trivial st [] sid hInv rfl
  | some sess =>
    obtain ⟨hlk, hin⟩ := storeGet_eq_some st sid' sess hsg
    have hOK := sessOK_spec sess (all_lookup _ _ _ _ hInv hlk)
    by_cases hst : sess.state = SessionState.Established
    · cases hs : sess.sdh.hasLocalStream
      · rw [toggleMute_noStream st sid' sess hsg hst hs]
        exact preserves_trivial st [] sid hInv rfl
      · have hOK2 : sessOK { sess with
            sdh := { sess.sdh with audioEnabled := !sess.sdh.audioEnabled } } = true := by
          apply sessOK_intro
          · exact hOK.1
          · exact hOK.2.1
          · exact hOK.2.2
        rw [toggleMute_flip st sid' sess hsg hst hs]
        exact preserves_set st sid' sess _ _ sid hInv hlk rfl hOK2 rfl
    · rw [toggleMute_wrongState st sid' sess hsg hst]
      exact preserves_trivial st [] sid hInv rfl

theorem sendDTMF_preserves (st : ServiceState) (sid' tone : String)
    (iOk : Bool) (sid : String) (hInv : InvB st = true) :
    InvB (sendDTMF st sid' tone iOk).2.1 = true ∧
    countRel sid (sendDTMF st sid' tone iOk).2.2 + relNatSt st sid ≤
      relNatSt (sendDTMF st sid' tone iOk).2.1 sid ∧
    countTerm sid (sendDTMF st sid' tone iOk).2.2 = 0 := by
  cases hsg : storeGet st sid' with
  | none =>
    rw [sendDTMF_notFound st sid' tone iOk hsg]
    exact preserves_trivial st [] sid hInv rfl
  | some sess =>
    by_cases hst : sess.state = SessionState.Established
    · cases iOk
      · rw [sendDTMF_fail st sid' tone sess hsg hst]
        exact preserves_trivial st _ sid hInv rfl
      · rw [sendDTMF_ok st sid' tone sess hsg hst]
        exact preserves_trivial st _ sid hInv rfl
    · rw [sendDTMF_wrongState st sid' tone iOk sess hsg hst]
      exact preserves_trivial st [] sid hInv rfl

theorem handleIncoming_preserves (st : ServiceState) (sid' : String)
    (sid : String) (hInv : InvB st = true)
    (hfresh : lookupPool st.sessions sid' = none) :
    InvB (handleIncomingCall st sid').1 = true ∧
    countRel sid (handleIncomingCall st sid').2 + relNatSt st sid ≤
      relNatSt (handleIncomingCall st sid').1 sid ∧
    countTerm sid (handleIncomingCall st sid').2 = 0 := by
  exact preserves_insert_fresh st sid' freshIncomingSession _ sid
    hInv hfresh rfl rfl rfl

/-- Every serialized step preserves the store invariant, grows the
released-tracks flag monotonically by at least the number of emitted media
releases, and emits no Terminated `onCallStateChange` event. -/
theorem step_spec (st : ServiceState) (e : Event) (sid : String)
    (hInv : InvB st = true) :
    InvB (step st e).1 = true ∧
    countRel sid (step st e).2 + relNatSt st sid ≤ relNatSt (step st e).1 sid ∧
    countTerm sid (step st e).2 = 0 := by
  cases e with
  | evMakeCall sid' a v tv mOk iOk =>
    cases hlk : lookupPool st.sessions sid' with
    | some s =>
      simp only [step, hlk, Option.isSome_some, if_true]
      exact preserves_trivial st [] sid hInv rfl
    | none =>
      simp only [step, hlk, Option.isSome_none, Bool.false_eq_true, if_false]
      exact makeCall_preserves st sid' a v tv mOk iOk sid hInv hlk
  | evAnswerCall sid' a v mOk aOk =>
    exact answerCall_preserves st sid' a v mOk aOk sid hInv
  | evRejectCall sid' rOk =>
    exact rejectCall_preserves st sid' rOk sid hInv
  | evHangupCall sid' sOk =>
    exact hangupCall_preserves st sid' sOk sid hInv
  | evToggleHold sid' hOk =>
    exact toggleHold_preserves st sid' hOk sid hInv
  | evToggleMute sid' =>
    exact toggleMute_preserves st sid' sid hInv
  | evSendDTMF sid' tone iOk =>
    exact sendDTMF_preserves st sid' tone iOk sid hInv
  | evHandleIncoming sid' =>
    cases hlk : lookupPool st.sessions sid' with
    | some s =>
      simp only [step, hlk, Option.isSome_some, if_true]
      exact preserves_trivial st [] sid hInv rfl
    | none =>
      simp only [step, hlk, Option.isSome_none, Bool.false_eq_true, if_false]
      exact handleIncoming_preserves st sid' sid hInv hlk
  | evDeliverState sid' s =>
    exact deliver_preserves st sid' s sid hInv

/-- Along any event trace from an invariant state, at most one media
release is ever emitted per session id (none if its tracks were already
stopped), and no Terminated `onCallStateChange` event is ever emitted. -/
theorem run_spec (es : List Event) : ∀ (st : ServiceState) (sid : String),
    InvB st = true →
    InvB (run st es).1 = true ∧
    countRel sid (run st es).2 + relNatSt st sid ≤ 1 ∧
    countTerm sid (run st es).2 = 0 := by
  induction es with
  | nil =>
    intro st sid hInv
    refine ⟨hInv, ?_, rfl⟩
    have h1 := relNatSt_le_one st sid
    have h0 : countRel sid (run st []).2 = 0 := rfl
    omega
  | cons e es ih =>
    intro st sid hInv
    obtain ⟨h1, h2, h3⟩ := step_spec st e sid hInv
    obtain ⟨g1, g2, g3⟩ := ih (step st e).1 sid h1
    have hle := relNatSt_le_one (step st e).1 sid
    refine ⟨?_, ?_, ?_⟩
    · simp only [run]
      exact g1
    · simp only [run, countRel_append]
      omega
    · simp only [run, countTerm_append]
      omega

theorem lookup_mem (l : List (String × Sess)) (sid : String) (s : Sess)
    (h : lookupPool l sid = some s) : (sid, s) ∈ l := by
  induction l with
  | nil => simp [lookupPool] at h
  | cons hd tl ih =>
    obtain ⟨a, b⟩ := hd
    by_cases hak : a = sid
    · simp only [lookupPool, if_pos hak] at h
      injection h with h
      subst hak
      subst h
      exact List.mem_cons_self _ _
    · simp only [lookupPool, if_neg hak] at h
      exact List.mem_cons_of_mem _ (ih h)

theorem storeGet_setSession_same (st : ServiceState) (sid : String) (v : Sess)
    (h : v.inStore = true) : storeGet (setSession st sid v) sid = some v := by
  unfold storeGet setSession
  rw [show lookupPool (poolInsert st.sessions sid v) sid = some v from by
    rw [lookup_poolInsert, if_pos rfl]]
  simp [h]

theorem storeGet_storeDelete (st : ServiceState) (sid : String) (s : Sess)
    (h : lookupPool st.sessions sid = some s) :
    storeGet (storeDelete st sid) sid = none := by
  rw [storeDelete_eq st sid s h]
  unfold storeGet setSession
  rw [show lookupPool (poolInsert st.sessions sid { s with inStore := false }) sid =
      some { s with inStore := false } from by
    rw [lookup_poolInsert, if_pos rfl]]
  simp

theorem mem_getActiveSessions (st : ServiceState) (sid : String) (sess : Sess)
    (hlk : lookupPool st.sessions sid = some sess) (hin : sess.inStore = true) :
    CallSession.mk sid sess.state sess.sdh.hasLocalStream ∈ getActiveSessions st := by
  unfold getActiveSessions
  refine List.mem_map.mpr ⟨(sid, sess), ?_, rfl⟩
  rw [List.mem_filter]
  exact ⟨lookup_mem st.sessions sid sess hlk, hin⟩

theorem getActiveSessions_sound (st : ServiceState) (cs : CallSession)
    (h : cs ∈ getActiveSessions st) :
    ∃ s2, (cs.id, s2) ∈ st.sessions ∧ s2.inStore = true ∧
      cs.state = s2.state ∧ cs.hasLocalStream = s2.sdh.hasLocalStream := by
  unfold getActiveSessions at h
  obtain ⟨⟨k, s2⟩, hmem, heq⟩ := List.mem_map.mp h
  rw [List.mem_filter] at hmem
  refine ⟨s2, ?_, hmem.2, ?_, ?_⟩
  · rw [← heq]
    exact hmem.1
  · rw [← heq]
  · rw [← heq]

/-! Claim theorems. -/

/-- Claim C1 counterexample: with the service initialized but the
registration state not Registered (`isRegistered` returns false), `makeCall`
does not fail with a NotRegistered-class error — it succeeds, stores the
session in the active-session map, and sends the INVITE offer.  The claim
that Originate requires RegistrationState == Registered is therefore false
of the code: `makeCall` never consults the registration state. -/
theorem C1_counterexample :
    isRegistered (mkService false) = false ∧
    (makeCall (mkService false) "s1" true false true true true).1 =
      Except.ok "s1" ∧
    storeGet (makeCall (mkService false) "s1" true false true true true).2.1 "s1" =
      some freshOutgoingSession ∧
    Effect.sendInvite "s1" ∈
      (makeCall (mkService false) "s1" true false true true true).2.2 := by
  refine ⟨rfl, rfl, ?_, ?_⟩ <;> decide

/-- Claim C1 (amended): `makeCall` checks only that the service is
initialized (`userAgent` and `config` non-null) and the target URI valid; it
performs no registration check, so its result and emitted effects are
completely independent of the registration state, and the resulting service
state differs only in the unchanged `registered` flag.  While unregistered
but initialized, `makeCall` proceeds to acquire media, store the session and
send the offer; no NotRegistered error exists in the code. -/
theorem C1_amended_registration_not_checked (st : ServiceState) (b : Bool)
    (sid : String) (a v tv mOk iOk : Bool) :
    (makeCall { st with registered := b } sid a v tv mOk iOk).1 =
      (makeCall st sid a v tv mOk iOk).1 ∧
    (makeCall { st with registered := b } sid a v tv mOk iOk).2.2 =
      (makeCall st sid a v tv mOk iOk).2.2 ∧
    (makeCall { st with registered := b } sid a v tv mOk iOk).2.1 =
      { (makeCall st sid a v tv mOk iOk).2.1 with registered := b } := by
  cases tv <;> cases mOk <;> cases iOk <;> cases hi : st.initialized <;>
    simp [makeCall, setSession, hi]

/-- Claim C4: when media acquisition fails (`getUserMedia` rejects), an
initialized `makeCall` throws the media-acquisition error, the service
state is completely unchanged — in particular no session is stored and the
session never exists, hence never reaches Establishing — and the only
outward effect is the failed acquisition attempt: no offer is sent. -/
theorem C4_media_failure_discards (st : ServiceState) (sid : String)
    (a v iOk : Bool) (hi : st.initialized = true) :
    makeCall st sid a v true false iOk =
      (Except.error Err.mediaAcquisitionFailed, st, [Effect.acquireMedia a v]) ∧
    ∀ s : String, Effect.sendInvite s ∉ (makeCall st sid a v true false iOk).2.2 := by
  refine ⟨makeCall_mediaFail st sid a v iOk hi, ?_⟩
  rw [makeCall_mediaFail st sid a v iOk hi]
  intro s
  simp

/-- Claim C4 witness. -/
theorem C4_witness :
    makeCall (mkService true) "s1" true true true false true =
      (Except.error Err.mediaAcquisitionFailed, mkService true,
       [Effect.acquireMedia true true]) :=
  (C4_media_failure_discards (mkService true) "s1" true true true rfl).1

/-- Claim C10: in `makeCall` the session is stored in the active-session map
before `invite()` is awaited, so when media acquisition succeeds but sending
the offer fails, `makeCall` throws while the session (with its captured
local stream) remains stored, and no media-release effect is emitted — the
acquired stream leaks. -/
theorem C10_invite_failure_leaks (st : ServiceState) (sid : String)
    (a v : Bool) (hi : st.initialized = true) :
    makeCall st sid a v true true false =
      (Except.error Err.inviteFailed, setSession st sid freshOutgoingSession,
       [Effect.acquireMedia a v, Effect.sendInvite sid]) ∧
    storeGet (makeCall st sid a v true true false).2.1 sid =
      some freshOutgoingSession ∧
    ∀ s : String, Effect.releaseMedia s ∉ (makeCall st sid a v true true false).2.2 := by
  refine ⟨makeCall_inviteFail st sid a v hi, ?_, ?_⟩
  · rw [makeCall_inviteFail st sid a v hi]
    exact storeGet_setSession_same st sid freshOutgoingSession rfl
  · rw [makeCall_inviteFail st sid a v hi]
    intro s
    simp

/-- Claim C10 witness. -/
theorem C10_witness :
    storeGet (makeCall (mkService true) "s1" true false true true false).2.1 "s1" =
      some freshOutgoingSession :=
  (C10_invite_failure_leaks (mkService true) "s1" true false rfl).2.1

/-- Claim C7: neither `handleIncomingCall` nor `rejectCall` ever calls
`getUserMedia`: across HandleIncoming followed by Reject the number of
media-acquire effects attributable to the session is zero, because media
acquisition is deferred to `answerCall`. -/
theorem C7_reject_never_acquires (st st2 : ServiceState) (sid sid2 : String)
    (rOk : Bool) :
    (∀ a v : Bool, Effect.acquireMedia a v ∉ (handleIncomingCall st sid).2) ∧
    (∀ a v : Bool, Effect.acquireMedia a v ∉ (rejectCall st2 sid2 rOk).2.2) := by
  constructor
  · intro a v
    simp [handleIncomingCall]
  · intro a v
    cases hsg : storeGet st2 sid2 with
    | none =>
      rw [rejectCall_notFound st2 sid2 rOk hsg]
      simp
    | some sess =>
      cases hd : sess.direction
      · rw [rejectCall_wrongDir st2 sid2 rOk sess hsg hd]
        simp
      · cases rOk
        · rw [rejectCall_fail st2 sid2 sess hsg hd]
          simp
        · rw [rejectCall_ok st2 sid2 sess hsg hd]
          simp

/-- Claim C8: the outbound signal sent by `hangupCall` is determined by the
session's current state — `cancel` while Initial or Establishing, `bye`
while Established — whether or not the awaited signal succeeds. -/
theorem C8_signal_by_state (st : ServiceState) (sid : String) (sOk : Bool)
    (sess : Sess) (h : storeGet st sid = some sess) :
    ((sess.state = SessionState.Initial ∨ sess.state = SessionState.Establishing) →
      (hangupCall st sid sOk).2.2 = [Effect.sendCancel sid]) ∧
    (sess.state = SessionState.Established →
      (hangupCall st sid sOk).2.2 = [Effect.sendBye sid]) := by
  constructor
  · intro hst
    cases sOk
    · rw [hangupCall_cancel_fail st sid sess h hst]
    · rw [hangupCall_cancel_ok st sid sess h hst]
  · intro hst
    cases sOk
    · rw [hangupCall_bye_fail st sid sess h hst]
    · rw [hangupCall_bye_ok st sid sess h hst]

/-- Claim C8 witness. -/
theorem C8_witness :
    (hangupCall
      { initialized := true, registered := true,
        sessions := [("s",
          { state := SessionState.Established, direction := Direction.Incoming,
            inStore := true, handlerCount := 0, incomingListener := true,
            pendingStream := false,
            sdh := { localHold := false, hasLocalStream := false,
                     tracksStopped := false, audioEnabled := true } })] }
      "s" true).2.2 = [Effect.sendBye "s"] :=
  (C8_signal_by_state _ "s" true
    { state := SessionState.Established, direction := Direction.Incoming,
      inStore := true, handlerCount := 0, incomingListener := true,
      pendingStream := false,
      sdh := { localHold := false, hasLocalStream := false,
               tracksStopped := false, audioEnabled := true } }
    (by decide)).2 rfl

/-- Claim C9: on an Established session with the handler-internal hold flag
clear, two successive `toggleHold` calls flip `localHold` false→true (with a
hold renegotiation) and then true→false (with an unhold renegotiation),
restoring the original flag; `toggleHold` on a session that is not
Established — which includes every Terminated session still stored — or on
a sessionId absent from the store (the case of a Terminated session already
cleaned up) fails with the same no-established-session
(InvalidSessionState-class) error. -/
theorem C9_toggleHold_involution (st : ServiceState) (sid : String)
    (sess : Sess) (b : Bool) (h : storeGet st sid = some sess) :
    (sess.state = SessionState.Established → sess.sdh.localHold = false →
      toggleHold st sid true =
        (Except.ok (),
         setSession st sid { sess with sdh := { sess.sdh with localHold := true } },
         [Effect.mediaHold sid]) ∧
      toggleHold (toggleHold st sid true).2.1 sid true =
        (Except.ok (),
         setSession (toggleHold st sid true).2.1 sid
           { sess with sdh := { sess.sdh with localHold := false } },
         [Effect.mediaUnhold sid]) ∧
      storeGet (toggleHold (toggleHold st sid true).2.1 sid true).2.1 sid =
        some { sess with sdh := { sess.sdh with localHold := false } }) ∧
    (sess.state ≠ SessionState.Established →
      toggleHold st sid b = (Except.error Err.noEstablishedSession, st, [])) ∧
    (∀ st2 : ServiceState, storeGet st2 sid = none →
      toggleHold st2 sid b = (Except.error Err.noEstablishedSession, st2, [])) := by
  obtain ⟨hlk, hin⟩ := storeGet_eq_some st sid sess h
  refine ⟨?_, ?_, ?_⟩
  · intro hst hh
    have e1 := toggleHold_hold st sid sess h hst hh
    have hsg1 : storeGet (toggleHold st sid true).2.1 sid =
        some { sess with sdh := { sess.sdh with localHold := true } } := by
      rw [e1]
      exact storeGet_setSession_same _ _ _ hin
    have e2 := toggleHold_unhold (toggleHold st sid true).2.1 sid
      { sess with sdh := { sess.sdh with localHold := true } } hsg1 hst rfl
    refine ⟨e1, ?_, ?_⟩
    · rw [e2]
    · rw [e2]
      exact storeGet_setSession_same _ _ _ hin
  · intro hst
    exact toggleHold_wrongState st sid b sess h hst
  · intro st2 h2
    exact toggleHold_notFound st2 sid b h2

/-- Claim C9 witness. -/
theorem C9_witness :
    toggleHold
      { initialized := true, registered := true,
        sessions := [("s",
          { state := SessionState.Established, direction := Direction.Outgoing,
            inStore := true, handlerCount := 1, incomingListener := false,
            pendingStream := true,
            sdh := { localHold := false, hasLocalStream := true,
                     tracksStopped := false, audioEnabled := true } })] }
      "s" true =
      (Except.ok (),
       setSession
         { initialized := true, registered := true,
           sessions := [("s",
             { state := SessionState.Established, direction := Direction.Outgoing,
               inStore := true, handlerCount := 1, incomingListener := false,
               pendingStream := true,
               sdh := { localHold := false, hasLocalStream := true,
                        tracksStopped := false, audioEnabled := true } })] }
         "s"
         { state := SessionState.Established, direction := Direction.Outgoing,
           inStore := true, handlerCount := 1, incomingListener := false,
           pendingStream := true,
           sdh := { localHold := true, hasLocalStream := true,
                    tracksStopped := false, audioEnabled := true } },
       [Effect.mediaHold "s"]) :=
  ((C9_toggleHold_involution _ "s"
    { state := SessionState.Established, direction := Direction.Outgoing,
      inStore := true, handlerCount := 1, incomingListener := false,
      pendingStream := true,
      sdh := { localHold := false, hasLocalStream := true,
               tracksStopped := false, audioEnabled := true } }
    true (by decide)).1 rfl rfl).1

theorem counts_zero_of_quiet (sid : String) (effs : List Effect)
    (h : effs.all quietEff = true) :
    countRel sid effs = 0 ∧ countTerm sid effs = 0 :=
  ⟨countRel_of_quiet sid effs h, countTerm_of_quiet sid effs h⟩

theorem setupStep_term_release (sid : String) (s : Sess)
    (h1 : s.sdh.hasLocalStream = true) (h2 : s.sdh.tracksStopped = false) :
    setupListenerStep sid SessionState.Terminated s =
      ({ s with inStore := false, sdh := { s.sdh with tracksStopped := true } },
       [Effect.releaseMedia sid]) := by
  simp [setupListenerStep, h1, h2]

theorem iter_term_release (sid : String) : ∀ (n : Nat) (s : Sess),
    s.sdh.hasLocalStream = true → s.sdh.tracksStopped = false → 1 ≤ n →
    countRel sid (iterListeners sid SessionState.Terminated n s).2 = 1 := by
  intro n s hl hstop hn
  cases n with
  | zero => omega
  | succ m =>
    have hstep := setupStep_term_release sid s hl hstop
    obtain ⟨a2, b2, c2, d2, e2, f2⟩ :=
      iter_term sid m (setupListenerStep sid SessionState.Terminated s).1
    have hrel1 : relNat (setupListenerStep sid SessionState.Terminated s).1 = 1 := by
      rw [hstep]
      rfl
    have hle := relNat_le_one
      (iterListeners sid SessionState.Terminated m
        (setupListenerStep sid SessionState.Terminated s).1).1
    have hz : countRel sid (iterListeners sid SessionState.Terminated m
        (setupListenerStep sid SessionState.Terminated s).1).2 = 0 := by
      omega
    simp only [iterListeners, countRel_append]
    rw [hz, hstep]
    simp [countRel]

theorem deliver_term_release (st : ServiceState) (sid : String) (sess : Sess)
    (hlk : lookupPool st.sessions sid = some sess)
    (hrank : sess.state.rank < SessionState.rank SessionState.Terminated)
    (hl : sess.sdh.hasLocalStream = true)
    (hstop : sess.sdh.tracksStopped = false)
    (hn : 1 ≤ sess.handlerCount) :
    countRel sid (deliverState st sid SessionState.Terminated).2 = 1 := by
  rw [deliver_guard_snd st sid SessionState.Terminated sess hlk hrank]
  unfold deliverCore
  apply iter_term_release
  · split <;> exact hl
  · split <;> exact hstop
  · exact hn

/-- Claim C3 counterexample: media release does not happen exactly once on
the transition into Terminated regardless of path.  In this trace `makeCall`
acquires a stream (the acquire effect is emitted), the call is cancelled via
`hangupCall` before ever reaching Established, and the Terminated
`stateChange` is then delivered: the session is Terminated, yet the release
count for it is zero — the stream was never attached (attachment happens
only in the Established listener branch) so `cleanupSession` stops nothing
and the acquired stream leaks. -/
theorem C3_counterexample :
    Effect.acquireMedia true false ∈
      (run (mkService true) [Event.evMakeCall "o" true false true true true,
        Event.evHangupCall "o" true,
        Event.evDeliverState "o" SessionState.Terminated]).2 ∧
    (lookupPool (run (mkService true)
        [Event.evMakeCall "o" true false true true true,
         Event.evHangupCall "o" true,
         Event.evDeliverState "o" SessionState.Terminated]).1.sessions "o").map
      Sess.state = some SessionState.Terminated ∧
    countRel "o" (run (mkService true)
      [Event.evMakeCall "o" true false true true true,
       Event.evHangupCall "o" true,
       Event.evDeliverState "o" SessionState.Terminated]).2 = 0 := by
  refine ⟨?_, rfl, rfl⟩
  decide

/-- Claim C3 (amended): Terminate is idempotent in the bounded sense the
code implements.  Along every serialized execution from a fresh instance at
most one media release is ever emitted per session id — in particular
calling `hangupCall` twice can never double-release — and no two (indeed
not even one) Terminated `onCallStateChange` emissions occur for a
transition, because `cleanupSession` removes the map entry before the
listener's `getSessionId` lookup.  `hangupCall` itself never releases or
emits: its effects are only the outbound `cancel`/`bye` signal; release
happens only inside the single guarded Terminated `stateChange` delivery,
and exactly once there precisely when a local stream is attached to the
handler with its tracks still live — a session that reaches Terminated
before Established never had its acquired stream attached and releases
nothing (the stream leaks), so release is not exactly-once on every path. -/
theorem C3_amended_release_bounds (es : List Event) (sid : String) (b : Bool) :
    countRel sid (run (mkService b) es).2 ≤ 1 ∧
    countTerm sid (run (mkService b) es).2 = 0 ∧
    (∀ (st : ServiceState) (sOk : Bool),
      countRel sid (hangupCall st sid sOk).2.2 = 0 ∧
      countTerm sid (hangupCall st sid sOk).2.2 = 0) ∧
    (∀ (st : ServiceState) (sess : Sess),
      lookupPool st.sessions sid = some sess →
      sess.state.rank < SessionState.rank SessionState.Terminated →
      sess.sdh.hasLocalStream = true →
      sess.sdh.tracksStopped = false →
      1 ≤ sess.handlerCount →
      countRel sid (deliverState st sid SessionState.Terminated).2 = 1) := by
  have hInv : InvB (mkService b) = true := rfl
  obtain ⟨h1, h2, h3⟩ := run_spec es (mkService b) sid hInv
  have h0 : relNatSt (mkService b) sid = 0 := rfl
  refine ⟨by omega, h3, ?_, ?_⟩
  case refine_2 =>
    intro st sess hlk hrank hl hstop hn
    exact deliver_term_release st sid sess hlk hrank hl hstop hn
  intro st sOk
  cases hsg : storeGet st sid with
  | none =>
    rw [hangupCall_notFound st sid sOk hsg]
    exact ⟨rfl, rfl⟩
  | some sess =>
    cases hst : sess.state
    · cases sOk
      · rw [hangupCall_cancel_fail st sid sess hsg (Or.inl hst)]
        exact counts_zero_of_quiet sid _ rfl
      · rw [hangupCall_cancel_ok st sid sess hsg (Or.inl hst)]
        exact counts_zero_of_quiet sid _ rfl
    · cases sOk
      · rw [hangupCall_cancel_fail st sid sess hsg (Or.inr hst)]
        exact counts_zero_of_quiet sid _ rfl
      · rw [hangupCall_cancel_ok st sid sess hsg (Or.inr hst)]
        exact counts_zero_of_quiet sid _ rfl
    · cases sOk
      · rw [hangupCall_bye_fail st sid sess hsg hst]
        exact counts_zero_of_quiet sid _ rfl
      · rw [hangupCall_bye_ok st sid sess hsg hst]
        exact counts_zero_of_quiet sid _ rfl
    · rw [hangupCall_late st sid sOk sess hsg (Or.inl hst)]
      exact ⟨rfl, rfl⟩
    · rw [hangupCall_late st sid sOk sess hsg (Or.inr hst)]
      exact ⟨rfl, rfl⟩

/-- Claim C3 witness. -/
theorem C3_witness :
    countRel "s" (deliverState
      { initialized := true, registered := true,
        sessions := [("s",
          { state := SessionState.Established, direction := Direction.Outgoing,
            inStore := true, handlerCount := 1, incomingListener := false,
            pendingStream := true,
            sdh := { localHold := false, hasLocalStream := true,
                     tracksStopped := false, audioEnabled := true } })] }
      "s" SessionState.Terminated).2 = 1 :=
  (C3_amended_release_bounds [] "s" true).2.2.2
    { initialized := true, registered := true,
      sessions := [("s",
        { state := SessionState.Established, direction := Direction.Outgoing,
          inStore := true, handlerCount := 1, incomingListener := false,
          pendingStream := true,
          sdh := { localHold := false, hasLocalStream := true,
                   tracksStopped := false, audioEnabled := true } })] }
    { state := SessionState.Established, direction := Direction.Outgoing,
      inStore := true, handlerCount := 1, incomingListener := false,
      pendingStream := true,
      sdh := { localHold := false, hasLocalStream := true,
               tracksStopped := false, audioEnabled := true } }
    (by decide) (by decide) rfl rfl (by decide)

/-- Claim C2 counterexample: after an incoming session reaches Terminated
(remote termination delivered), further operations on its sessionId do fail,
but not with a SessionEnded-class error: `hangupCall` throws exactly the
same `'Session not found'` error it throws for a sessionId that never
existed, and `toggleHold` throws the no-established-session error.  The
code has no SessionEnded error at all, so the claimed error class is wrong. -/
theorem C2_counterexample :
    (lookupPool (run (mkService true) [Event.evHandleIncoming "s",
      Event.evDeliverState "s" SessionState.Terminated]).1.sessions "s").map
        Sess.state = some SessionState.Terminated ∧
    hangupCall (run (mkService true) [Event.evHandleIncoming "s",
      Event.evDeliverState "s" SessionState.Terminated]).1 "s" true =
      (Except.error Err.sessionNotFound,
       (run (mkService true) [Event.evHandleIncoming "s",
         Event.evDeliverState "s" SessionState.Terminated]).1, []) ∧
    hangupCall (run (mkService true) [Event.evHandleIncoming "s",
      Event.evDeliverState "s" SessionState.Terminated]).1 "missing" true =
      (Except.error Err.sessionNotFound,
       (run (mkService true) [Event.evHandleIncoming "s",
         Event.evDeliverState "s" SessionState.Terminated]).1, []) ∧
    toggleHold (run (mkService true) [Event.evHandleIncoming "s",
      Event.evDeliverState "s" SessionState.Terminated]).1 "s" true =
      (Except.error Err.noEstablishedSession,
       (run (mkService true) [Event.evHandleIncoming "s",
         Event.evDeliverState "s" SessionState.Terminated]).1, []) := by
  exact ⟨rfl, rfl, rfl, rfl⟩

/-- Claim C2 (amended): Terminated is absorbing in the weaker sense the code
implements: once a session has reached Terminated its listeners have
removed it from the active-session map, so every further operation on that
sessionId fails synchronously and performs no state change — `hangupCall`
with the generic `'Session not found'` error, `answerCall`/`rejectCall`
with the invalid-session error, and `toggleHold`/`toggleMute`/`sendDTMF`
with the no-established-session error — rather than with a dedicated
SessionEnded error, which does not exist in the code. -/
theorem C2_amended_terminated_absorbing (st : ServiceState) (sid : String)
    (sess : Sess) (a v sOk rOk aOk hOk iOk : Bool) (tone : String)
    (hInv : InvB st = true)
    (hlk : lookupPool st.sessions sid = some sess)
    (hterm : sess.state = SessionState.Terminated) :
    storeGet st sid = none ∧
    hangupCall st sid sOk = (Except.error Err.sessionNotFound, st, []) ∧
    answerCall st sid a v true aOk =
      (Except.error Err.invalidSessionOrNotFound, st, []) ∧
    rejectCall st sid rOk = (Except.error Err.invalidSessionOrNotFound, st, []) ∧
    toggleHold st sid hOk = (Except.error Err.noEstablishedSession, st, []) ∧
    toggleMute st sid = (Except.error Err.noEstablishedSession, st, []) ∧
    sendDTMF st sid tone iOk = (Except.error Err.noEstablishedSession, st, []) := by
  have hOK := sessOK_spec sess (all_lookup _ _ _ _ hInv hlk)
  have hns : storeGet st sid = none := by
    unfold storeGet
    simp only [hlk]
    simp [hOK.2.1 hterm]
  exact ⟨hns, hangupCall_notFound _ _ _ hns,
    answerCall_notFound _ _ _ _ _ _ hns, rejectCall_notFound _ _ _ hns,
    toggleHold_notFound _ _ _ hns, toggleMute_notFound _ _ hns,
    sendDTMF_notFound _ _ _ _ hns⟩

/-- Claim C2 witness. -/
theorem C2_witness :
    hangupCall
      { initialized := true, registered := true,
        sessions := [("s",
          { state := SessionState.Terminated, direction := Direction.Incoming,
            inStore := false, handlerCount := 0, incomingListener := true,
            pendingStream := false,
            sdh := { localHold := false, hasLocalStream := false,
                     tracksStopped := false, audioEnabled := true } })] }
      "s" true =
      (Except.error Err.sessionNotFound,
       { initialized := true, registered := true,
         sessions := [("s",
           { state := SessionState.Terminated, direction := Direction.Incoming,
             inStore := false, handlerCount := 0, incomingListener := true,
             pendingStream := false,
             sdh := { localHold := false, hasLocalStream := false,
                      tracksStopped := false, audioEnabled := true } })] }, []) :=
  (C2_amended_terminated_absorbing _ "s"
    { state := SessionState.Terminated, direction := Direction.Incoming,
      inStore := false, handlerCount := 0, incomingListener := true,
      pendingStream := false,
      sdh := { localHold := false, hasLocalStream := false,
               tracksStopped := false, audioEnabled := true } }
    true true true true true true true "1"
    (by decide) (by decide) rfl).2.1

/-- Claim C5 counterexample: `answerCall` performs no session-state check.
For an Incoming session that is already Established (not Establishing), the
claim requires an InvalidSessionState failure, but `answerCall` succeeds
and acquires media. -/
theorem C5_counterexample :
    (storeGet (run (mkService true) [Event.evHandleIncoming "s",
      Event.evDeliverState "s" SessionState.Established]).1 "s").map
        Sess.state = some SessionState.Established ∧
    (answerCall (run (mkService true) [Event.evHandleIncoming "s",
      Event.evDeliverState "s" SessionState.Established]).1
      "s" true false true true).1 = Except.ok () ∧
    Effect.acquireMedia true false ∈
      (answerCall (run (mkService true) [Event.evHandleIncoming "s",
        Event.evDeliverState "s" SessionState.Established]).1
        "s" true false true true).2.2 := by
  refine ⟨rfl, rfl, ?_⟩
  decide

/-- Claim C5 (amended): `answerCall` fails with the single combined
`'Invalid session ID or session not found'` error both when the sessionId
is unknown and when the stored session is not an `Invitation` (direction
Outgoing); it performs no state check at all, so for any stored Incoming
session — whatever its state — it acquires media and, on success, accepts
the invitation and emits a state-change notification with the session's
current state.  The transition to Established itself arrives later through
the SIP.js `stateChange` listener. -/
theorem C5_amended_answer_checks (st : ServiceState) (sid : String)
    (a v aOk : Bool) :
    (storeGet st sid = none →
      answerCall st sid a v true aOk =
        (Except.error Err.invalidSessionOrNotFound, st, [])) ∧
    (∀ sess, storeGet st sid = some sess → sess.direction = Direction.Outgoing →
      answerCall st sid a v true aOk =
        (Except.error Err.invalidSessionOrNotFound, st, [])) ∧
    (∀ sess, storeGet st sid = some sess → sess.direction = Direction.Incoming →
      Effect.acquireMedia a v ∈ (answerCall st sid a v true aOk).2.2 ∧
      answerCall st sid a v true true =
        (Except.ok (),
         setSession st sid { sess with
           handlerCount := sess.handlerCount + 1, pendingStream := true },
         [Effect.acquireMedia a v, Effect.sendAccept sid,
          Effect.callStateChange sid sess.state])) := by
  refine ⟨?_, ?_, ?_⟩
  · intro hns
    exact answerCall_notFound st sid a v true aOk hns
  · intro sess hsg hd
    exact answerCall_wrongDir st sid a v true aOk sess hsg hd
  · intro sess hsg hd
    constructor
    · cases aOk
      · rw [answerCall_acceptFail st sid a v sess hsg hd]
        simp
      · rw [answerCall_accept st sid a v sess hsg hd]
        simp
    · exact answerCall_accept st sid a v sess hsg hd

/-- Claim C5 witness. -/
theorem C5_witness :
    Effect.acquireMedia true false ∈
      (answerCall
        { initialized := true, registered := true,
          sessions := [("s",
            { state := SessionState.Established, direction := Direction.Incoming,
              inStore := true, handlerCount := 0, incomingListener := true,
              pendingStream := false,
              sdh := { localHold := false, hasLocalStream := false,
                       tracksStopped := false, audioEnabled := true } })] }
        "s" true false true true).2.2 :=
  ((C5_amended_answer_checks _ "s" true false true).2.2
    { state := SessionState.Established, direction := Direction.Incoming,
      inStore := true, handlerCount := 0, incomingListener := true,
      pendingStream := false,
      sdh := { localHold := false, hasLocalStream := false,
               tracksStopped := false, audioEnabled := true } }
    (by decide) rfl).1

/-- Claim C6 counterexample: a session created by `handleIncomingCall` and
then hung up is deleted from the active-session map at hangup time, while
its state is still Initial — it has not reached Terminated (the cancel was
sent but no Terminated event was delivered), yet `getActiveSessions`
already omits it.  So sessions are not retrievable via ListActive until
they reach Terminated. -/
theorem C6_counterexample :
    (lookupPool (run (mkService true) [Event.evHandleIncoming "s",
      Event.evHangupCall "s" true]).1.sessions "s").map Sess.state =
        some SessionState.Initial ∧
    Effect.sendCancel "s" ∈ (run (mkService true) [Event.evHandleIncoming "s",
      Event.evHangupCall "s" true]).2 ∧
    getActiveSessions (run (mkService true) [Event.evHandleIncoming "s",
      Event.evHangupCall "s" true]).1 = [] := by
  refine ⟨rfl, ?_, rfl⟩
  decide

/-- Claim C6 (amended): `getActiveSessions` is a snapshot of exactly the
sessions currently in the `activeSessions` map, with no filtering on state:
every stored session appears with its current attributes, and every snapshot
entry comes from a stored session.  Map membership does not coincide with
being non-terminal: a successful `hangupCall` removes the session from the
map immediately — before it reaches Terminated — so presence in ListActive
lasts only until hangup/reject/cleanup, not until Terminated. -/
theorem C6_amended_snapshot (st : ServiceState) (sid : String) (sess : Sess)
    (h : storeGet st sid = some sess) :
    CallSession.mk sid sess.state sess.sdh.hasLocalStream ∈ getActiveSessions st ∧
    (∀ cs ∈ getActiveSessions st, ∃ s2, (cs.id, s2) ∈ st.sessions ∧
      s2.inStore = true ∧ cs.state = s2.state ∧
      cs.hasLocalStream = s2.sdh.hasLocalStream) ∧
    storeGet (hangupCall st sid true).2.1 sid = none := by
  obtain ⟨hlk, hin⟩ := storeGet_eq_some st sid sess h
  refine ⟨mem_getActiveSessions st sid sess hlk hin, ?_, ?_⟩
  · intro cs hcs
    exact getActiveSessions_sound st cs hcs
  · cases hst : sess.state
    · rw [hangupCall_cancel_ok st sid sess h (Or.inl hst)]
      exact storeGet_storeDelete st sid sess hlk
    · rw [hangupCall_cancel_ok st sid sess h (Or.inr hst)]
      exact storeGet_storeDelete st sid sess hlk
    · rw [hangupCall_bye_ok st sid sess h hst]
      exact storeGet_storeDelete st sid sess hlk
    · rw [hangupCall_late st sid true sess h (Or.inl hst)]
      exact storeGet_storeDelete st sid sess hlk
    · rw [hangupCall_late st sid true sess h (Or.inr hst)]
      exact storeGet_storeDelete st sid sess hlk

/-- Claim C6 witness. -/
theorem C6_witness :
    storeGet (hangupCall
      { initialized := true, registered := true,
        sessions := [("s", freshIncomingSession)] } "s" true).2.1 "s" = none :=
  (C6_amended_snapshot _ "s" freshIncomingSession (by decide)).2.2
